import Mathlib

/-!
Verification development for the MCP proxy service (query orchestration
pipeline).  The Python sources under `mcp-proxy-service/app/` are shallowly
embedded: each Python function the claims touch is translated into an
executable Lean definition over an explicit JSON value type, with Python
run-time failure modelled by `Option`/`Except` and external collaborators
(the completion service, the remote tool executor, Redis) modelled as
oracle parameters supplying their outcomes.
-/

deriving instance DecidableEq for Except

namespace SdeMcp

/-- JSON values as produced by Python's `json.loads`: `None`, booleans,
numbers (modelled as integers; no claim involves floats), strings, lists
and dicts.  A dict is an association list in insertion order; the parser
below keeps keys unique exactly as a Python dict does. -/
inductive Json where
  | null
  | bool (b : Bool)
  | num (n : Int)
  | str (s : String)
  | arr (xs : List Json)
  | obj (fields : List (String × Json))

mutual

def beqJ : Json → Json → Bool
  | .null, .null => true
  | .bool a, .bool b => a = b
  | .num a, .num b => a = b
  | .str a, .str b => a = b
  | .arr a, .arr b => beqJA a b
  | .obj a, .obj b => beqJF a b
  | _, _ => false

def beqJA : List Json → List Json → Bool
  | [], [] => true
  | u :: us, w :: ws => beqJ u w && beqJA us ws
  | _, _ => false

def beqJF (fs gs : List (String × Json)) : Bool :=
  match fs, gs with
  | [], [] => true
  | (k, v) :: us, (l, w) :: ws => k = l && beqJ v w && beqJF us ws
  | _, _ => false

end

mutual

theorem beqJ_iff : ∀ a b : Json, beqJ a b = true ↔ a = b
  | .null, .null => by simp [beqJ]
  | .bool _, .bool _ => by simp [beqJ]
  | .num _, .num _ => by simp [beqJ]
  | .str _, .str _ => by simp [beqJ]
  | .arr x, .arr y => by simp [beqJ, beqJA_iff x y]
  | .obj x, .obj y => by simp [beqJ, beqJF_iff x y]
  | .null, .bool _ | .null, .num _ | .null, .str _ | .null, .arr _ | .null, .obj _
  | .bool _, .null | .bool _, .num _ | .bool _, .str _ | .bool _, .arr _ | .bool _, .obj _
  | .num _, .null | .num _, .bool _ | .num _, .str _ | .num _, .arr _ | .num _, .obj _
  | .str _, .null | .str _, .bool _ | .str _, .num _ | .str _, .arr _ | .str _, .obj _
  | .arr _, .null | .arr _, .bool _ | .arr _, .num _ | .arr _, .str _ | .arr _, .obj _
  | .obj _, .null | .obj _, .bool _ | .obj _, .num _ | .obj _, .str _ | .obj _, .arr _ => by
    simp [beqJ]

theorem beqJA_iff : ∀ xs ys : List Json, beqJA xs ys = true ↔ xs = ys
  | [], [] => by simp [beqJA]
  | u :: us, w :: ws => by simp [beqJA, beqJ_iff u w, beqJA_iff us ws]
  | [], _ :: _ => by simp [beqJA]
  | _ :: _, [] => by simp [beqJA]

theorem beqJF_iff : ∀ xs ys : List (String × Json), beqJF xs ys = true ↔ xs = ys
  | [], [] => by simp [beqJF]
  | (k, v) :: us, (l, w) :: ws => by
    simp [beqJF, beqJ_iff v w, beqJF_iff us ws, and_assoc, Prod.ext_iff]
  | [], _ :: _ => by simp [beqJF]
  | _ :: _, [] => by simp [beqJF]

end

instance : DecidableEq Json := fun a b => decidable_of_iff (beqJ a b = true) (beqJ_iff a b)

/-! ## Python primitives

Character-level models of the Python string and dict operations the
sources use: `sub in s`, `s.find(sub)`, `s.split(sep)`, `s.strip()`,
`s.lower()`, dict `get`, and truthiness. -/

/-- Lookup in a Python dict (association list with unique keys): the value
stored under `k`, if present. -/
def pyGet (d : List (String × Json)) (k : String) : Option Json :=
  (d.find? (fun p => p.1 = k)).map (fun p => p.2)

/-- Python `d.get(k, default)`. -/
def pyGetD (d : List (String × Json)) (k : String) (v : Json) : Json :=
  (pyGet d k).getD v

/-- Python `d[k] = v`: replace the value under an existing key in place,
otherwise append the new pair. -/
def dictInsert (d : List (String × Json)) (k : String) (v : Json) : List (String × Json) :=
  if (d.find? (fun p => p.1 = k)).isSome then
    d.map (fun p => if p.1 = k then (k, v) else p)
  else d ++ [(k, v)]

/-- Python truthiness of a JSON value: `None`, `False`, `0`, `""`, `[]`
and the empty dict are falsy, everything else truthy. -/
def pyTruthy : Json → Bool
  | .null => false
  | .bool b => b
  | .num n => n ≠ 0
  | .str s => s ≠ ""
  | .arr xs => xs ≠ []
  | .obj fs => fs ≠ []

/-- Open-brace character, written by code point to keep braces out of
string literals. -/
def obr : Char := Char.ofNat 123

/-- Close-brace character. -/
def cbr : Char := Char.ofNat 125

/-- Backtick character. -/
def btick : Char := Char.ofNat 96

/-- Does the character list start with the given pattern? -/
def startsWithL : List Char → List Char → Bool
  | _, [] => true
  | [], _ :: _ => false
  | c :: cs, p :: ps => c = p && startsWithL cs ps

/-- Python `s.find(sub)` restricted to found/not-found: index of the first
occurrence of `pat` in `cs`. -/
def findSub : List Char → List Char → Option Nat
  | [], pat => if startsWithL [] pat then some 0 else none
  | c :: cs, pat =>
    if startsWithL (c :: cs) pat then some 0
    else (findSub cs pat).map (· + 1)

/-- Python `sub in s`. -/
def hasSub (cs pat : List Char) : Bool :=
  (findSub cs pat).isSome

/-- Python `s.split(sep)` (fuel-indexed recursion; the wrapper below
supplies enough fuel for any input). -/
def pySplitF : Nat → List Char → List Char → List (List Char)
  | 0, cs, _ => [cs]
  | fuel + 1, cs, pat =>
    match findSub cs pat with
    | none => [cs]
    | some i => cs.take i :: pySplitF fuel (cs.drop (i + pat.length)) pat

/-- Python `s.split(sep)` for a non-empty separator. -/
def pySplit (cs pat : List Char) : List (List Char) :=
  pySplitF (cs.length + 1) cs pat

/-- Characters Python's `str.strip()` removes. -/
def isPyWs (c : Char) : Bool :=
  c = ' ' || c = '\t' || c = '\n' || c = '\x0d' || c = '\x0b' || c = '\x0c'

/-- Python `s.strip()`. -/
def pyStrip (cs : List Char) : List Char :=
  ((cs.dropWhile isPyWs).reverse.dropWhile isPyWs).reverse

/-- Python `s.lower()` (ASCII case folding, which is all the keyword
vocabulary needs). -/
def pyLower (s : String) : String :=
  String.mk (s.toList.map Char.toLower)

/-- Python `sub in s` on `String`s. -/
def strHasSub (s sub : String) : Bool :=
  hasSub s.toList sub.toList

/-! ## Serialization: `json.dumps`

Model of `json.dumps` with the default separators `", "` and `": "`.
Control characters and non-ASCII characters are `\\u`-escaped, as
`ensure_ascii=True` does (code points beyond `0xFFFF`, which would need a
surrogate pair, are outside the model; no claim involves them). -/

/-- Lowercase hex digit for a value below 16. -/
def hexDigit (n : Nat) : Char :=
  if n < 10 then Char.ofNat (48 + n) else Char.ofNat (87 + n)

/-- Decimal digit character. -/
def digitChar (d : Nat) : Char :=
  Char.ofNat (48 + d)

/-- Decimal digits of a natural number, most significant first
(fuel-indexed so the kernel can evaluate it). -/
def natToCharsAux : Nat → Nat → List Char → List Char
  | 0, _, acc => acc
  | fuel + 1, n, acc =>
    if n < 10 then digitChar n :: acc
    else natToCharsAux fuel (n / 10) (digitChar (n % 10) :: acc)

/-- Decimal rendering of a natural number. -/
def natToChars (n : Nat) : List Char :=
  natToCharsAux (n + 1) n []

/-- Python `str(int)`: optional minus sign followed by decimal digits. -/
def intToChars (n : Int) : List Char :=
  if n < 0 then '-' :: natToChars n.natAbs else natToChars n.natAbs

/-- Escape one character the way `json.dumps` renders it inside a string
literal. -/
def escChar (c : Char) : List Char :=
  if c = '"' then ['\\', '"']
  else if c = '\\' then ['\\', '\\']
  else if c = '\n' then ['\\', 'n']
  else if c = '\t' then ['\\', 't']
  else if c = '\x0d' then ['\\', 'r']
  else if c = '\x08' then ['\\', 'b']
  else if c = '\x0c' then ['\\', 'f']
  else if c.toNat < 32 || 127 ≤ c.toNat then
    ['\\', 'u', hexDigit (c.toNat / 4096 % 16), hexDigit (c.toNat / 256 % 16),
      hexDigit (c.toNat / 16 % 16), hexDigit (c.toNat % 16)]
  else [c]

/-- Characters of a JSON string literal, quotes included. -/
def dumpsStr (s : String) : List Char :=
  '"' :: (s.toList.map escChar).flatten ++ ['"']

mutual

/-- Characters of `json.dumps(v)` (default separators). -/
def dumpsV : Json → List Char
  | .null => 'n' :: "ull".toList
  | .bool true => 't' :: "rue".toList
  | .bool false => 'f' :: "alse".toList
  | .num n => intToChars n
  | .str s => dumpsStr s
  | .arr xs => '[' :: dumpsA xs ++ [']']
  | .obj fs => obr :: dumpsF fs ++ [cbr]

/-- Comma-joined array elements. -/
def dumpsA : List Json → List Char
  | [] => []
  | [x] => dumpsV x
  | x :: y :: xs => dumpsV x ++ [',', ' '] ++ dumpsA (y :: xs)

/-- Comma-joined `"key": value` fields. -/
def dumpsF : List (String × Json) → List Char
  | [] => []
  | [(k, v)] => dumpsStr k ++ [':', ' '] ++ dumpsV v
  | (k, v) :: f :: fs => dumpsStr k ++ [':', ' '] ++ dumpsV v ++ [',', ' '] ++ dumpsF (f :: fs)

end

/-- String form of `json.dumps(v)`. -/
def dumps (v : Json) : String :=
  String.mk (dumpsV v)

/-! ## Parsing: `json.loads`

Fuel-indexed recursive-descent model of `json.loads`.  Faithful to the
strict JSON grammar Python implements (leading-zero rejection, control
characters forbidden inside strings, trailing data rejected, duplicate
object keys resolved last-wins) with one documented restriction: numbers
are integers, so a float, `NaN` or `Infinity` literal makes the model
return `none`; no claim involves non-integer numbers. -/

/-- JSON inter-token whitespace skipper. -/
def skipWs : List Char → List Char
  | [] => []
  | c :: cs => if c = ' ' || c = '\t' || c = '\n' || c = '\x0d' then skipWs cs else c :: cs

/-- Hex digit value. -/
def hexVal (c : Char) : Option Nat :=
  if '0' ≤ c ∧ c ≤ '9' then some (c.toNat - 48)
  else if 'a' ≤ c ∧ c ≤ 'f' then some (c.toNat - 87)
  else if 'A' ≤ c ∧ c ≤ 'F' then some (c.toNat - 55)
  else none

/-- Body of a JSON string literal after the opening quote: the decoded
string and the remaining input. -/
def parseStrBody : Nat → List Char → List Char → Option (String × List Char)
  | 0, _, _ => none
  | fuel + 1, cs, acc =>
    match cs with
    | [] => none
    | c :: rest =>
      if c = '"' then some (String.mk acc.reverse, rest)
      else if c = '\\' then
        match rest with
        | [] => none
        | e :: r2 =>
          if e = '"' then parseStrBody fuel r2 ('"' :: acc)
          else if e = '\\' then parseStrBody fuel r2 ('\\' :: acc)
          else if e = '/' then parseStrBody fuel r2 ('/' :: acc)
          else if e = 'b' then parseStrBody fuel r2 ('\x08' :: acc)
          else if e = 'f' then parseStrBody fuel r2 ('\x0c' :: acc)
          else if e = 'n' then parseStrBody fuel r2 ('\n' :: acc)
          else if e = 'r' then parseStrBody fuel r2 ('\x0d' :: acc)
          else if e = 't' then parseStrBody fuel r2 ('\t' :: acc)
          else if e = 'u' then
            match r2 with
            | h1 :: h2 :: h3 :: h4 :: r3 =>
              match hexVal h1, hexVal h2, hexVal h3, hexVal h4 with
              | some a, some b, some c3, some d =>
                parseStrBody fuel r3 (Char.ofNat (a * 4096 + b * 256 + c3 * 16 + d) :: acc)
              | _, _, _, _ => none
            | _ => none
          else none
      else if c.toNat < 32 then none
      else parseStrBody fuel rest (c :: acc)

/-- Numeric value of a digit character. -/
def digitVal (c : Char) : Nat :=
  c.toNat - 48

/-- JSON number starting at the given input (integers only; a fraction or
exponent part makes the model reject, see module comment). -/
def parseNumFrom (cs : List Char) : Option (Json × List Char) :=
  let neg : Bool := match cs with
    | c :: _ => c = '-'
    | [] => false
  let cs1 := if neg then cs.drop 1 else cs
  let ds := cs1.takeWhile Char.isDigit
  let rest := cs1.dropWhile Char.isDigit
  if ds = [] then none
  else if 1 < ds.length ∧ ds.headD '0' = '0' then none
  else
    let ok : Option (Json × List Char) :=
      let v : Int := ds.foldl (fun a c => a * 10 + (digitVal c : Int)) 0
      some (.num (if neg then -v else v), rest)
    match rest with
    | c :: _ => if c = '.' ∨ c = 'e' ∨ c = 'E' then none else ok
    | [] => ok

mutual

/-- One JSON value at the head of the input (whitespace allowed before
it), returning the value and the remaining input. -/
def parseVal : Nat → List Char → Option (Json × List Char)
  | 0, _ => none
  | fuel + 1, cs =>
    match skipWs cs with
    | [] => none
    | c :: rest =>
      if c = 'n' then
        if startsWithL rest ['u', 'l', 'l'] then some (.null, rest.drop 3) else none
      else if c = 't' then
        if startsWithL rest ['r', 'u', 'e'] then some (.bool true, rest.drop 3) else none
      else if c = 'f' then
        if startsWithL rest ['a', 'l', 's', 'e'] then some (.bool false, rest.drop 4) else none
      else if c = '"' then
        (parseStrBody (rest.length + 1) rest []).map (fun p => (.str p.1, p.2))
      else if c = obr then parseObjRest fuel (skipWs rest) []
      else if c = '[' then parseArrRest fuel (skipWs rest) []
      else if c = '-' ∨ c.isDigit then parseNumFrom (c :: rest)
      else none

/-- Object fields after `"{"` (or after a separating comma), accumulating
into a Python-dict-like association list via `dictInsert`. -/
def parseObjRest : Nat → List Char → List (String × Json) → Option (Json × List Char)
  | 0, _, _ => none
  | fuel + 1, cs, acc =>
    match cs with
    | [] => none
    | c :: rest =>
      if c = cbr ∧ acc = [] then some (.obj acc, rest)
      else if c = '"' then
        match parseStrBody (rest.length + 1) rest [] with
        | none => none
        | some (k, r1) =>
          match skipWs r1 with
          | ':' :: r2 =>
            match parseVal fuel r2 with
            | none => none
            | some (v, r3) =>
              let acc' := dictInsert acc k v
              match skipWs r3 with
              | ',' :: r4 => parseObjRest fuel (skipWs r4) acc'
              | c5 :: r5 => if c5 = cbr then some (.obj acc', r5) else none
              | [] => none
          | _ => none
      else none

/-- Array elements after `"["` (or after a separating comma). -/
def parseArrRest : Nat → List Char → List Json → Option (Json × List Char)
  | 0, _, _ => none
  | fuel + 1, cs, acc =>
    match cs with
    | [] => none
    | c :: _ =>
      if c = ']' ∧ acc = [] then some (.arr acc, cs.drop 1)
      else
        match parseVal fuel cs with
        | none => none
        | some (v, r1) =>
          let acc' := acc ++ [v]
          match skipWs r1 with
          | ',' :: r2 => parseArrRest fuel r2 acc'
          | c3 :: r3 => if c3 = ']' then some (.arr acc', r3) else none
          | [] => none

end

/-- Python `json.loads` on a character list: a JSON value followed by
nothing but whitespace, else failure. -/
def jsonParse (cs : List Char) : Option Json :=
  match parseVal (cs.length + 2) cs with
  | none => none
  | some (v, rest) => if skipWs rest = [] then some v else none

/-- Python `json.loads` on a `String`. -/
def jsonParseS (s : String) : Option Json :=
  jsonParse s.toList

/-! ## Python value rendering

`repr`/`str` of parsed JSON values, used by the f-strings of the fallback
formatters and error messages.  Exact for `None`, booleans, integers and
simple strings; for containers it renders Python's bracketed form (string
escaping inside `repr` is not modelled; no claim exercises it). -/

mutual

/-- Python `repr` of a JSON value. -/
def pyRepr : Json → String
  | .null => "None"
  | .bool true => "True"
  | .bool false => "False"
  | .num n => toString n
  | .str s => "\x27" ++ s ++ "\x27"
  | .arr xs => "[" ++ pyReprA xs ++ "]"
  | .obj fs => "\x7b" ++ pyReprF fs ++ "\x7d"

/-- Comma-joined element reprs. -/
def pyReprA : List Json → String
  | [] => ""
  | [x] => pyRepr x
  | x :: y :: xs => pyRepr x ++ ", " ++ pyReprA (y :: xs)

/-- Comma-joined `'key': value` field reprs. -/
def pyReprF : List (String × Json) → String
  | [] => ""
  | [(k, v)] => "\x27" ++ k ++ "\x27: " ++ pyRepr v
  | (k, v) :: f :: fs => "\x27" ++ k ++ "\x27: " ++ pyRepr v ++ ", " ++ pyReprF (f :: fs)

end

/-- Python `str` of a JSON value: the string itself for strings, `repr`
otherwise. -/
def pyStr : Json → String
  | .str s => s
  | v => pyRepr v

/-- Two-space padding for one indentation level. -/
def pad (lvl : Nat) : String :=
  String.mk (List.replicate (2 * lvl) ' ')

mutual

/-- Characters of `json.dumps(v, indent=2)` rendered at the given
indentation level. -/
def dumpsIndV (lvl : Nat) : Json → String
  | .obj [] => "\x7b\x7d"
  | .obj fs => "\x7b\n" ++ dumpsIndF lvl fs ++ "\n" ++ pad lvl ++ "\x7d"
  | .arr [] => "[]"
  | .arr xs => "[\n" ++ dumpsIndA lvl xs ++ "\n" ++ pad lvl ++ "]"
  | .null => "null"
  | .bool true => "true"
  | .bool false => "false"
  | .num n => toString n
  | .str s => String.mk (dumpsStr s)

/-- Newline-and-comma-joined indented array elements. -/
def dumpsIndA (lvl : Nat) : List Json → String
  | [] => ""
  | [x] => pad (lvl + 1) ++ dumpsIndV (lvl + 1) x
  | x :: y :: xs => pad (lvl + 1) ++ dumpsIndV (lvl + 1) x ++ ",\n" ++ dumpsIndA lvl (y :: xs)

/-- Newline-and-comma-joined indented object fields. -/
def dumpsIndF (lvl : Nat) : List (String × Json) → String
  | [] => ""
  | [(k, v)] => pad (lvl + 1) ++ String.mk (dumpsStr k) ++ ": " ++ dumpsIndV (lvl + 1) v
  | (k, v) :: f :: fs =>
    pad (lvl + 1) ++ String.mk (dumpsStr k) ++ ": " ++ dumpsIndV (lvl + 1) v ++ ",\n" ++
      dumpsIndF lvl (f :: fs)

end

/-- Python `json.dumps(v, indent=2)`. -/
def dumpsInd (v : Json) : String :=
  dumpsIndV 0 v

/-! ## `claude_adapter.py`: intent resolution

`ClaudeToolSelector.select_tool`.  The completion service is external, so
the raw completion text is the model's input; everything from
`raw_response = response.content[0].text.strip()` on is embedded. -/

/-- Fence pattern three-backticks-json, written by code point. -/
def tickJsonPat : List Char := [btick, btick, btick, 'j', 's', 'o', 'n']

/-- Fence pattern of three backticks. -/
def tickPat : List Char := [btick, btick, btick]

/-- Brace-matching loop of `select_tool` (lines 112–121): starting from
the character at `start_idx` with `brace_count = 0`, step the count on
each brace and stop with `i + 1` the first time a closing brace brings it
to zero. -/
def findMatch : List Char → Int → Nat → Option Nat
  | [], _, _ => none
  | c :: cs, count, i =>
    if c = obr then findMatch cs (count + 1) (i + 1)
    else if c = cbr then
      if count - 1 = 0 then some (i + 1) else findMatch cs (count - 1) (i + 1)
    else findMatch cs count (i + 1)

/-- Fence handling of `select_tool` (lines 100–104): when a fenced block
marker occurs, keep what lies between `` ```json `` (or `` ``` ``) and
the next `` ``` ``, stripped. -/
def fence_strip (t0 : List Char) : List Char :=
  if hasSub t0 tickJsonPat then
    pyStrip ((pySplit ((pySplit t0 tickJsonPat).getD 1 []) tickPat).getD 0 [])
  else if hasSub t0 tickPat then
    pyStrip ((pySplit ((pySplit t0 tickPat).getD 1 []) tickPat).getD 0 [])
  else t0

/-- Brace-span extraction of `select_tool` (lines 106–129): scan from the
first opening brace for its matching close and keep just that span,
dropping trailing prose; when the scan never closes, keep the text
whole. -/
def brace_phase (t1 : List Char) : List Char :=
  if hasSub t1 [obr] && hasSub t1 [cbr] then
    match findSub t1 [obr] with
    | some start =>
      match findMatch (t1.drop start) 0 start with
      | some endIdx =>
        if start < endIdx then (t1.drop start).take (endIdx - start) else t1
      | none => t1
    | none => t1
  else t1

/-- Defensive JSON extraction of `select_tool` (lines 100–129): fence
handling followed by brace-span extraction. -/
def extractJsonChars (t0 : List Char) : List Char :=
  brace_phase (fence_strip t0)

/-- The spec's fenced presentation of a completion payload:
`` ```json `` newline, the payload, newline, `` ``` ``. -/
def fence_wrap (s : List Char) : List Char :=
  tickJsonPat ++ ('\n' :: (s ++ ('\n' :: tickPat)))

/-- Brace weight of one character: `+1` for `{`, `-1` for `}`. -/
def braceDelta (c : Char) : Int :=
  if c = obr then 1 else if c = cbr then -1 else 0

/-- Net brace weight of a character list. -/
def braceSum (cs : List Char) : Int :=
  (cs.map braceDelta).sum

/-- Character lists whose net brace weight is zero and never goes
negative on a prefix: the shape the brace scan walks through without
closing early. -/
def BraceNeutral (cs : List Char) : Prop :=
  braceSum cs = 0 ∧ ∀ j, 0 ≤ braceSum (cs.take j)

/-- Brace-neutral and backtick-free: serialized chunks the fence
handling and brace scan both treat transparently. -/
def GoodChunk (cs : List Char) : Prop :=
  BraceNeutral cs ∧ btick ∉ cs

/-- Printable-ASCII character that is not a brace or a backtick: the
string alphabet on which JSON extraction round-trips. -/
def charOkB (c : Char) : Bool :=
  32 ≤ c.toNat && c.toNat < 127 && c ≠ obr && c ≠ cbr && c ≠ btick

/-- Character list with no braces and no backticks at all. -/
def FlatTick (cs : List Char) : Prop :=
  ∀ c ∈ cs, braceDelta c = 0 ∧ c ≠ btick

mutual

/-- Does a JSON value use only the `charOkB` alphabet in its strings and
keys? -/
def plainV : Json → Bool
  | .null => true
  | .bool _ => true
  | .num _ => true
  | .str s => s.toList.all charOkB
  | .arr xs => plainA xs
  | .obj fs => plainF fs

/-- Array version of `plainV`. -/
def plainA : List Json → Bool
  | [] => true
  | x :: xs => plainV x && plainA xs

/-- Field-list version of `plainV`. -/
def plainF : List (String × Json) → Bool
  | [] => true
  | (k, v) :: fs => k.toList.all charOkB && plainV v && plainF fs

end

/-- Chat message as sent to the completion service. -/
structure ChatMessage where
  role : String
  content : String
deriving DecidableEq

/-- User prompt of `select_tool` (lines 76–81); the rendered tool catalog
is a parameter since `_format_tools_for_claude` produces it separately. -/
def select_user_prompt (tools_description query : String) : String :=
  "Available tools:\n" ++ tools_description ++ "\n\nUser query: " ++ query ++
    "\n\nRespond with JSON only:"

/-- Message list `select_tool` passes to the completion call (lines
88–90): a single user message.  The method signature is
`select_tool(self, query, available_tools)`; it has no conversation
history parameter at all. -/
def select_tool_messages (tools_description query : String) : List ChatMessage :=
  [⟨"user", select_user_prompt tools_description query⟩]

/-- Stand-in for the message text of Python's `json.JSONDecodeError`
(produced inside the stdlib; its exact wording is opaque to the model and
no theorem depends on it). -/
def jsonDecodeErrDetail : String := "Expecting value"

/-- Python type name of a JSON value, as it appears in an
`AttributeError` message. -/
def pyTypeName : Json → String
  | .null => "NoneType"
  | .bool _ => "bool"
  | .num _ => "int"
  | .str _ => "str"
  | .arr _ => "list"
  | .obj _ => "dict"

/-- Outcome of `select_tool` (lines 94–158) on a completion text: the
`(tool_name, arguments)` pair, or the `ValueError` message raised.  The
declared contract is `Tuple[str, dict]`; a truthy non-string `tool_name`
is rendered to its string form here (no claim exercises that corner).
Parse failure reproduces the line-145 message, a falsy or absent
`tool_name` the line-138 message as re-wrapped by the generic handler at
line 156, and a non-dict parse the `AttributeError` wrapped at line 156;
each carries the raw (stripped) completion text. -/
def select_tool (completionText : String) : Except String (String × Json) :=
  let raw := String.mk (pyStrip completionText.toList)
  let t := String.mk (extractJsonChars raw.toList)
  match jsonParseS t with
  | none =>
    .error ("Failed to parse Claude response as JSON: " ++ jsonDecodeErrDetail ++
      "\n\nRaw Claude response:\n" ++ raw)
  | some (.obj fs) =>
    let tool_name := pyGetD fs "tool_name" .null
    if pyTruthy tool_name then
      .ok (pyStr tool_name, pyGetD fs "arguments" (.obj []))
    else
      .error ("Claude tool selection failed: Tool selection failed: " ++
        pyStr (pyGetD fs "error" (.str "No tool selected")) ++
        "\n\nRaw Claude response:\n" ++ raw)
  | some v =>
    .error ("Claude tool selection failed: \x27" ++ pyTypeName v ++
      "\x27 object has no attribute \x27get\x27\n\nRaw Claude response:\n" ++ raw)

/-! ## `mcp_client.py`: tool catalog cache and tool invocation -/

/-- Tool descriptor as built by `get_tools` (lines 50–57). -/
structure ToolDesc where
  name : String
  description : String
  input_schema : Json
deriving DecidableEq

/-- Tool-list cache fields of `MCPHTTPClient` (lines 20–21). -/
structure CacheState where
  tool_cache : Option (List ToolDesc)
  cache_time : Option Int
deriving DecidableEq

/-- Cache TTL, `timedelta(minutes=5)` in seconds. -/
def cache_ttl : Int := 300

/-- One call to `get_tools` (lines 38–61): `fetched` is what the remote
`list_tools` would deliver if consulted.  Returns the tool list handed to
the caller, the successor cache state, and whether a remote fetch
happened.  The guard is Python's `if self._tool_cache and
self._cache_time:` — the cached list must be truthy (non-`None` and
non-empty) for the TTL check to be reached at all. -/
def get_tools (st : CacheState) (now : Int) (fetched : List ToolDesc) :
    List ToolDesc × CacheState × Bool :=
  match st.tool_cache, st.cache_time with
  | some c, some t =>
    if c ≠ [] ∧ now - t < cache_ttl then (c, st, false)
    else (fetched, ⟨some fetched, some now⟩, true)
  | _, _ => (fetched, ⟨some fetched, some now⟩, true)

/-- One element of an MCP result's `content` list, classified the way the
lines 75–81 attribute checks see it: an object with a `.text` attribute,
a plain string, a plain dict, or anything else (contributing nothing). -/
inductive McpItem where
  | textAttr (text : String)
  | strItem (s : String)
  | dictItem (d : List (String × Json))
  | opaqueItem
deriving DecidableEq

/-- The `result.content` value of an MCP tool call as `call_tool` (lines
63–94) discriminates it: a string, a dict, an iterable of items (with the
Python `str()` rendering of the whole list carried as opaque data for the
no-text-parts branch), or any other object with its `str()` rendering. -/
inductive McpContent where
  | ofStr (s : String)
  | ofDict (d : List (String × Json))
  | ofList (items : List McpItem) (rep : String)
  | ofOther (rep : String)
deriving DecidableEq

/-- Content after the list-flattening step (lines 71–85), before JSON
parsing. -/
inductive Extracted where
  | txt (s : String)
  | dict (d : List (String × Json))
  | other (rep : String)
deriving DecidableEq

/-- The `text_parts` collection (lines 74–81).  A dict item contributes
its `"text"` value whatever its type, matching `item['text']`. -/
def extract_text_parts (items : List McpItem) : List Json :=
  items.filterMap fun
    | .textAttr t => some (.str t)
    | .strItem s => some (.str s)
    | .dictItem d => pyGet d "text"
    | .opaqueItem => none

/-- Join a list of strings with a separator, Python `sep.join`. -/
def joinWith (sep : String) : List String → String
  | [] => ""
  | [x] => x
  | x :: y :: xs => x ++ sep ++ joinWith sep (y :: xs)

/-- Python `"\n".join(text_parts)`: raises `TypeError` (modelled `none`)
unless every part is a string. -/
def joinParts (parts : List Json) : Option String :=
  (parts.mapM fun
    | Json.str s => some s
    | _ => none).map (joinWith "\n")

/-- Content extraction phase of `call_tool` (lines 71–85). -/
def extract_content : McpContent → Option Extracted
  | .ofStr s => some (.txt s)
  | .ofDict d => some (.dict d)
  | .ofList items rep =>
    let parts := extract_text_parts items
    if parts ≠ [] then (joinParts parts).map .txt
    else some (.txt rep)
  | .ofOther rep => some (.other rep)

/-- Parse phase of `call_tool` (lines 87–94): parse string content as
JSON if possible, else wrap it as `{"raw": content}`; pass dicts through;
stringify anything else into `{"raw": str(content)}`. -/
def parse_phase : Extracted → Json
  | .txt s =>
    match jsonParseS s with
    | some j => j
    | none => .obj [("raw", .str s)]
  | .dict d => .obj d
  | .other rep => .obj [("raw", .str rep)]

/-- Result of `call_tool` given the MCP `result.content`; `none` is a
Python exception escaping `call_tool` (only the non-string `text_parts`
join can raise here). -/
def call_tool_result (content : McpContent) : Option Json :=
  (extract_content content).map parse_phase

/-! ## `redis_client.py`: session store

`RedisSessionStorage.append_conversation`.  Timestamps are abstract
instants (`Nat`) in place of ISO strings; the Redis round-trip is the
`Option SessionContext` in/out. -/

/-- One stored Q&A turn (the dict built at lines 47–52). -/
structure ConversationTurn where
  timestamp : Nat
  query : String
  response : String
  metadata : List (String × Json)
deriving DecidableEq

/-- Stored session context (the dict of lines 41–45; `updated_at` is set
on every append and is modelled as always present). -/
structure SessionContext where
  session_id : String
  created_at : Nat
  conversations : List ConversationTurn
  updated_at : Nat
deriving DecidableEq

/-- `append_conversation` (lines 33–59): load-or-create, append one turn,
keep the last 50 (`conversations[-50:]`), refresh `updated_at`, write
back.  `existing` is what `get_session_context` returned. -/
def append_conversation (existing : Option SessionContext) (session_id query response : String)
    (metadata : List (String × Json)) (now : Nat) : SessionContext :=
  let context := existing.getD ⟨session_id, now, [], now⟩
  let convs := context.conversations ++ [⟨now, query, response, metadata⟩]
  let convs := if 50 < convs.length then convs.drop (convs.length - 50) else convs
  { context with conversations := convs, updated_at := now }

/-! ## `response_formatter.py`: deterministic fallback formatter

Each `_format_*` method, with `none` modelling a Python exception
escaping the formatter (`.get`/`len`/slicing on a value of the wrong
shape). -/

/-- Python `str.title()` (ASCII). -/
def pyTitle (s : String) : String :=
  String.mk (titleGo true s.toList)
where
  titleGo : Bool → List Char → List Char
    | _, [] => []
    | capNext, c :: cs =>
      if c.isAlpha then (if capNext then c.toUpper else c) :: titleGo false cs
      else c :: titleGo true cs

/-- `_format_project_creation` (lines 37–49). -/
def format_project_creation (result : List (String × Json)) : Option String :=
  if pyTruthy (pyGetD result "success" .null) then
    match pyGetD result "project" (.obj []) with
    | .obj project =>
      let name := pyStr (pyGetD project "name" (.str "Unknown"))
      let project_id := pyStr (pyGetD project "id" (.str "Unknown"))
      let url := pyGetD project "url" (.str "")
      let response := "Successfully created project \x27" ++ name ++ "\x27 (ID: " ++ project_id ++ ")"
      some (if pyTruthy url then response ++ ". You can view it at: " ++ pyStr url else response)
    | _ => none
  else
    some ("Failed to create project: " ++ pyStr (pyGetD result "error" (.str "Unknown error")))

/-- Numbered lines of the project-list loop (lines 59–64), `none` when an
element is not a dict. -/
def projLines (idx : Nat) : List Json → Option String
  | [] => some ""
  | p :: rest =>
    match p with
    | .obj proj =>
      let name := pyStr (pyGetD proj "name" (.str "Unknown"))
      let proj_id := pyStr (pyGetD proj "id" (.str "Unknown"))
      let status := pyGetD proj "status" (.str "")
      let status_str := if pyTruthy status then " - " ++ pyStr status else ""
      (projLines (idx + 1) rest).map fun tail =>
        toString idx ++ ". " ++ name ++ " (ID: " ++ proj_id ++ ")" ++ status_str ++ "\n" ++ tail
    | _ => none

/-- Body of `_format_project_list` (lines 55–69) applied to the already
selected `projects` value: render the first 10, `"+N more"` past 10,
final `strip`. -/
def format_project_list_selected (projects : Json) : Option String :=
  if ¬ pyTruthy projects then some "No projects found."
  else
    match projects with
    | .arr ps =>
      (projLines 1 (ps.take 10)).map fun body =>
        let response := "Found " ++ toString ps.length ++ " project(s):\n" ++ body
        let response :=
          if 10 < ps.length then
            response ++ "\n... and " ++ toString (ps.length - 10) ++ " more projects."
          else response
        String.mk (pyStrip response.toList)
    | _ => none

/-- `_format_project_list` (lines 51–69): the projects come from the
`"results"` key, falling back to `"projects"`, defaulting to the empty
list (line 54). -/
def format_project_list (result : List (String × Json)) : Option String :=
  format_project_list_selected (pyGetD result "results" (pyGetD result "projects" (.arr [])))

/-- Detail body shared by both branches of `_format_project_details`
(lines 84–115), given the resolved project dict. -/
def projectDetails (project : List (String × Json)) : Option String :=
  if ¬ pyTruthy (Json.obj project) ∨ ¬ pyTruthy (pyGetD project "id" .null) then
    some "Project not found."
  else
    let name := pyStr (pyGetD project "name" (.str "Unknown"))
    let proj_id := pyStr (pyGetD project "id" (.str "Unknown"))
    let url := pyGetD project "url" (.str "")
    let response := "Project: " ++ name ++ " (ID: " ++ proj_id ++ ")"
    let response := if pyTruthy url then response ++ "\nURL: " ++ pyStr url else response
    let description := pyGetD project "description" .null
    let response :=
      if pyTruthy description then response ++ "\nDescription: " ++ pyStr description else response
    let createdA := pyGetD project "created" .null
    let created := if pyTruthy createdA then createdA else pyGetD project "created_date" .null
    let response := if pyTruthy created then response ++ "\nCreated: " ++ pyStr created else response
    let updatedA := pyGetD project "updated" .null
    let updated := if pyTruthy updatedA then updatedA else pyGetD project "modified_date" .null
    let response := if pyTruthy updated then response ++ "\nUpdated: " ++ pyStr updated else response
    let profile := pyGetD project "profile" .null
    let response :=
      if pyTruthy profile then
        let profile_name := match profile with
          | .obj p => pyStr (pyGetD p "name" .null)
          | other => pyStr other
        response ++ "\nProfile: " ++ profile_name
      else response
    some response

/-- `_format_project_details` (lines 71–115). -/
def format_project_details (result : List (String × Json)) : Option String :=
  if (pyGet result "id").isSome ∧ (pyGet result "name").isSome then
    projectDetails result
  else if (pyGet result "project").isSome then
    match pyGetD result "project" (.obj []) with
    | .obj project => projectDetails project
    | other => if ¬ pyTruthy other then some "Project not found." else none
  else some "Project not found."

/-- `_format_project_update` (lines 117–123). -/
def format_project_update (result : List (String × Json)) : Option String :=
  if pyTruthy (pyGetD result "success" .null) then
    match pyGetD result "project" (.obj []) with
    | .obj project =>
      some ("Successfully updated project \x27" ++ pyStr (pyGetD project "name" (.str "Unknown")) ++ "\x27")
    | _ => none
  else
    some ("Failed to update project: " ++ pyStr (pyGetD result "error" (.str "Unknown error")))

/-- `_format_application_creation` (lines 125–132). -/
def format_application_creation (result : List (String × Json)) : Option String :=
  if pyTruthy (pyGetD result "success" .null) then
    match pyGetD result "application" (.obj []) with
    | .obj app =>
      some ("Successfully created application \x27" ++ pyStr (pyGetD app "name" (.str "Unknown")) ++
        "\x27 (ID: " ++ pyStr (pyGetD app "id" (.str "Unknown")) ++ ")")
    | _ => none
  else
    some ("Failed to create application: " ++ pyStr (pyGetD result "error" (.str "Unknown error")))

/-- Numbered lines of the application-list loop (lines 141–144). -/
def appLines (idx : Nat) : List Json → Option String
  | [] => some ""
  | p :: rest =>
    match p with
    | .obj app =>
      (appLines (idx + 1) rest).map fun tail =>
        toString idx ++ ". " ++ pyStr (pyGetD app "name" (.str "Unknown")) ++ " (ID: " ++
          pyStr (pyGetD app "id" (.str "Unknown")) ++ ")\n" ++ tail
    | _ => none

/-- `_format_application_list` (lines 134–149): reads only the
`"applications"` key — no `"results"` normalization. -/
def format_application_list (result : List (String × Json)) : Option String :=
  let applications := pyGetD result "applications" (.arr [])
  if ¬ pyTruthy applications then some "No applications found."
  else
    match applications with
    | .arr aps =>
      (appLines 1 (aps.take 10)).map fun body =>
        let response := "Found " ++ toString aps.length ++ " application(s):\n" ++ body
        let response :=
          if 10 < aps.length then
            response ++ "\n... and " ++ toString (aps.length - 10) ++ " more applications."
          else response
        String.mk (pyStrip response.toList)
    | _ => none

/-- `_format_application_details` (lines 151–159). -/
def format_application_details (result : List (String × Json)) : Option String :=
  match pyGetD result "application" (.obj []) with
  | .obj app =>
    if ¬ pyTruthy (Json.obj app) then some "Application not found."
    else
      some ("Application: " ++ pyStr (pyGetD app "name" (.str "Unknown")) ++ " (ID: " ++
        pyStr (pyGetD app "id" (.str "Unknown")) ++ ")")
  | other => if ¬ pyTruthy other then some "Application not found." else none

/-- `_format_profile_creation` (lines 161–168). -/
def format_profile_creation (result : List (String × Json)) : Option String :=
  if pyTruthy (pyGetD result "success" .null) then
    match pyGetD result "profile" (.obj []) with
    | .obj profile =>
      some ("Successfully created profile \x27" ++ pyStr (pyGetD profile "name" (.str "Unknown")) ++
        "\x27 (ID: " ++ pyStr (pyGetD profile "id" (.str "Unknown")) ++ ")")
    | _ => none
  else
    some ("Failed to create profile: " ++ pyStr (pyGetD result "error" (.str "Unknown error")))

/-- Numbered lines of the profile-list loop (lines 177–180). -/
def profileLines (idx : Nat) : List Json → Option String
  | [] => some ""
  | p :: rest =>
    match p with
    | .obj profile =>
      (profileLines (idx + 1) rest).map fun tail =>
        toString idx ++ ". " ++ pyStr (pyGetD profile "name" (.str "Unknown")) ++ " (ID: " ++
          pyStr (pyGetD profile "id" (.str "Unknown")) ++ ")\n" ++ tail
    | _ => none

/-- `_format_profile_list` (lines 170–185). -/
def format_profile_list (result : List (String × Json)) : Option String :=
  let profiles := pyGetD result "profiles" (.arr [])
  if ¬ pyTruthy profiles then some "No profiles found."
  else
    match profiles with
    | .arr ps =>
      (profileLines 1 (ps.take 10)).map fun body =>
        let response := "Found " ++ toString ps.length ++ " profile(s):\n" ++ body
        let response :=
          if 10 < ps.length then
            response ++ "\n... and " ++ toString (ps.length - 10) ++ " more profiles."
          else response
        String.mk (pyStrip response.toList)
    | _ => none

/-- `_format_profile_details` (lines 187–195). -/
def format_profile_details (result : List (String × Json)) : Option String :=
  match pyGetD result "profile" (.obj []) with
  | .obj profile =>
    if ¬ pyTruthy (Json.obj profile) then some "Profile not found."
    else
      some ("Profile: " ++ pyStr (pyGetD profile "name" (.str "Unknown")) ++ " (ID: " ++
        pyStr (pyGetD profile "id" (.str "Unknown")) ++ ")")
  | other => if ¬ pyTruthy other then some "Profile not found." else none

/-- The `message +=` additions of `_format_generic`'s success branch
(lines 204–210). -/
def genericAdditions (result : List (String × Json)) : String :=
  (["project", "application", "profile", "result"].map fun key =>
    if pyTruthy (pyGetD result key .null) then
      match pyGetD result key .null with
      | .obj d => "\n\n" ++ pyTitle key ++ ": " ++ dumpsInd (.obj d)
      | v => "\n\n" ++ pyTitle key ++ ": " ++ pyStr v
    else "").foldl (· ++ ·) ""

/-- `_format_generic` (lines 197–223).  A non-string `"message"` value
would escape Python's declared `str` contract (and then fail pydantic
validation downstream); it is modelled as a formatter failure. -/
def format_generic (result : List (String × Json)) : Option String :=
  if (pyGet result "success").isSome then
    if pyTruthy (pyGetD result "success" .null) then
      match pyGetD result "message" (.str "Operation completed successfully") with
      | .str m => some (m ++ genericAdditions result)
      | _ => none
    else
      some ("Operation failed: " ++ pyStr (pyGetD result "error" (.str "Unknown error")))
  else
    let parts := result.map fun kv =>
      match kv.2 with
      | .obj _ => kv.1 ++ ":\n" ++ dumpsInd kv.2
      | .arr _ => kv.1 ++ ":\n" ++ dumpsInd kv.2
      | v => kv.1 ++ ": " ++ pyStr v
    if parts ≠ [] then some (joinWith "\n" parts) else some (dumpsInd (.obj result))

/-- `format_tool_result` (lines 9–35): dispatch on the exact tool name,
generic otherwise.  Every branch starts with a dict access, so a non-dict
result raises (`none`). -/
def format_tool_result (tool_name : String) (result : Json) : Option String :=
  match result with
  | .obj d =>
    if tool_name = "create_project" then format_project_creation d
    else if tool_name = "list_projects" then format_project_list d
    else if tool_name = "get_project" then format_project_details d
    else if tool_name = "update_project" then format_project_update d
    else if tool_name = "create_application" then format_application_creation d
    else if tool_name = "list_applications" then format_application_list d
    else if tool_name = "get_application" then format_application_details d
    else if tool_name = "create_profile" then format_profile_creation d
    else if tool_name = "list_profiles" then format_profile_list d
    else if tool_name = "get_profile" then format_profile_details d
    else format_generic d
  | _ => none

/-! ## `claude_formatter.py`: primary formatter

`ClaudeResponseFormatter.format_result`.  The completion round-trip is an
external oracle outcome; what is embedded is the outcome handling of
lines 109–120: strip the text on success, convert a timeout or any
exception into a `ValueError` that the orchestrator will catch. -/

/-- Outcome of the bounded completion call inside `format_result`. -/
inductive FmtOutcome where
  | ok (text : String)
  | timeout
  | failure (msg : String)
deriving DecidableEq

/-- Rendering of the constructor default `timeout=10.0` inside the
timeout message. -/
def claude_timeout_default : String := "10.0"

/-- `format_result` outcome handling (lines 109–120). -/
def format_result (outcome : FmtOutcome) : Except String String :=
  match outcome with
  | .ok text => .ok (String.mk (pyStrip text.toList))
  | .timeout => .error ("Claude formatting timed out after " ++ claude_timeout_default ++ " seconds")
  | .failure msg => .error ("Claude formatting failed: " ++ msg)

/-! ## `main.py`: the `process_query` orchestrator

The endpoint body of lines 186–320, with every awaited collaborator an
oracle outcome in `Effects`.  The service-initialization 503 guard and
the FastAPI plumbing are outside; `session_id` is the
already-resolved-or-generated identifier of line 190 and `store` is the
Redis snapshot `get_session_context` returned at line 193. -/

/-- Response envelope (`QueryResponse` in `models.py`); an omitted
`tool_name`/`error` is pydantic's `None` default. -/
structure QueryResponse where
  response : String
  success : Bool
  session_id : String
  tool_name : Option String
  error : Option String
deriving DecidableEq

/-- Outcomes of the awaited collaborators for one request: the tool
catalog, the selector, the primary tool call, the optional secondary
(augmentation) tool call, the primary formatter's completion call, and
the Redis append. -/
structure Effects where
  tools : List ToolDesc
  selectRes : Except String (String × Json)
  callPrimary : Except String Json
  callSecondary : Except String Json
  formatRes : FmtOutcome
  persistRes : Except String Unit

/-- Keyword vocabulary for the applications side (line 210). -/
def application_words : List String := ["application", "applications", "app", "apps"]

/-- Keyword vocabulary for the projects side (line 211). -/
def project_words : List String := ["project", "projects"]

/-- Line 210: does the lowercased query mention applications? -/
def needs_applications_query (query : String) : Bool :=
  application_words.any fun w => strHasSub (pyLower query) w

/-- Line 211: does the lowercased query mention projects? -/
def needs_projects_query (query : String) : Bool :=
  project_words.any fun w => strHasSub (pyLower query) w

/-- Line 212: the multi-intent trigger. -/
def needs_both_query (query : String) : Bool :=
  needs_applications_query query && needs_projects_query query

/-- Multi-intent augmentation and merge (lines 243–279).  First stage:
under `needs_both`, a resolved `list_applications` fetches projects
best-effort into `projects_result`, while a resolved `list_projects`
fetches applications and merges inline when both sides are dicts.  Second
stage (lines 270–279): the `list_applications` side merges only when
`projects_result` is also *truthy*, normalizing each side's `"results"`
versus kind-named key. -/
def multi_intent_merge (needs_both : Bool) (tool_name : String) (result0 : Json)
    (secondary : Except String Json) : Json :=
  let stage : Json × Option Json :=
    if needs_both && tool_name = "list_applications" then
      match secondary with
      | .ok pr => (result0, some pr)
      | .error _ => (result0, none)
    else if needs_both && tool_name = "list_projects" then
      match secondary with
      | .ok ar =>
        match result0, ar with
        | .obj r0, .obj a0 =>
          (.obj [("projects", pyGetD r0 "results" (pyGetD r0 "projects" (.arr []))),
                 ("applications", pyGetD a0 "results" (pyGetD a0 "applications" (.arr [])))],
            none)
        | _, _ => (result0, none)
      | .error _ => (result0, none)
    else (result0, none)
  match stage.2 with
  | some pr =>
    if needs_both && pyTruthy pr && tool_name = "list_applications" then
      match stage.1, pr with
      | .obj r1, .obj p1 =>
        .obj [("applications", pyGetD r1 "results" (pyGetD r1 "applications" (.arr []))),
              ("projects", pyGetD p1 "results" (pyGetD p1 "projects" (.arr [])))]
      | _, _ => stage.1
    else stage.1
  | none => stage.1

/-- Stand-in for the text of the Python exception that escapes when the
*fallback* formatter itself raises on an ill-shaped result (that
exception is caught by the generic handler at line 313; its exact wording
is opaque to the model and no theorem depends on it). -/
def fallback_crash_text : String := "fallback formatter raised"

/-- Formatting step of `process_query` (lines 281–292): the primary
formatter's outcome, with any failure replaced by the fallback
formatter's output; a fallback exception escapes to the generic
handler. -/
def format_step (tool_name : String) (result : Json) (outcome : FmtOutcome) :
    Except String String :=
  match format_result outcome with
  | .ok s => .ok s
  | .error _ =>
    match format_tool_result tool_name result with
    | some s => .ok s
    | none => .error fallback_crash_text

/-- `process_query` (lines 186–320) over the collaborator outcomes:
returns the response envelope and the session store after the request.
The augmentation keyword check mirrors lines 209–212; failure paths
return the store unchanged; a formatting failure falls back to
`format_tool_result`; a Redis append failure reaches the generic
`except` of line 313. -/
def process_query (query session_id : String) (store : Option SessionContext) (now : Nat)
    (fx : Effects) : QueryResponse × Option SessionContext :=
  if fx.tools = [] then
    ({ response := "No tools available from MCP server", success := false,
       session_id := session_id, tool_name := none, error := some "No tools available" }, store)
  else
    let needs_both := needs_both_query query
    match fx.selectRes with
    | .error e =>
      ({ response := e, success := false, session_id := session_id,
         tool_name := none, error := some e }, store)
    | .ok (tool_name, _arguments) =>
      match fx.callPrimary with
      | .error e =>
        ({ response := "Failed to execute tool \x27" ++ tool_name ++ "\x27: " ++ e,
           success := false, session_id := session_id,
           tool_name := some tool_name, error := some e }, store)
      | .ok result0 =>
        let result := multi_intent_merge needs_both tool_name result0 fx.callSecondary
        match format_step tool_name result fx.formatRes with
        | .error e =>
          ({ response := "An error occurred: " ++ e, success := false,
             session_id := session_id, tool_name := none, error := some e }, store)
        | .ok formatted =>
          match fx.persistRes with
          | .ok _ =>
            ({ response := formatted, success := true, session_id := session_id,
               tool_name := some tool_name, error := none },
              some (append_conversation store session_id query formatted
                [("tool_name", .str tool_name), ("success", .bool true)] now))
          | .error e =>
            ({ response := "An error occurred: " ++ e, success := false,
               session_id := session_id, tool_name := none, error := some e }, store)

/-! ## Session-store runs

Iterated `append_conversation`, for the bounded-history claims. -/

/-- The last `n` elements of a list (all of them when it is shorter). -/
def lastN (n : Nat) (xs : List α) : List α :=
  xs.drop (xs.length - n)

/-- Arguments of one `append_conversation` call. -/
structure AppendInput where
  query : String
  response : String
  metadata : List (String × Json)
  now : Nat
deriving DecidableEq

/-- The turn an `append_conversation` call stores. -/
def inputTurn (it : AppendInput) : ConversationTurn :=
  ⟨it.now, it.query, it.response, it.metadata⟩

/-- The conversations held by an optional stored context. -/
def convsOf (st : Option SessionContext) : List ConversationTurn :=
  (st.map SessionContext.conversations).getD []

/-- Sequential `append_conversation` calls on one session, each reading
what the previous one wrote. -/
def append_run (sid : String) (st : Option SessionContext) : List AppendInput → Option SessionContext
  | [] => st
  | it :: rest =>
    append_run sid (some (append_conversation st sid it.query it.response it.metadata it.now)) rest

/-! ## Helper lemmas -/

theorem startsWithL_refl (l : List Char) : startsWithL l l = true := by
  induction l with
  | nil => rfl
  | cons c cs ih => simp [startsWithL, ih]

theorem findSub_self (b : List Char) : findSub b b = some 0 := by
  cases b with
  | nil => rfl
  | cons c cs => simp [findSub, startsWithL_refl]

theorem hasSub_append_right (a b : List Char) : hasSub (a ++ b) b = true := by
  induction a with
  | nil => simp [hasSub, findSub_self]
  | cons c cs ih =>
    simp only [hasSub, List.cons_append, findSub] at ih ⊢
    split
    · simp
    · simpa using ih

theorem keep_last_eq (xs : List α) :
    (if 50 < xs.length then xs.drop (xs.length - 50) else xs) = lastN 50 xs := by
  unfold lastN
  split
  · rfl
  · next h =>
    have h0 : xs.length - 50 = 0 := by omega
    simp [h0]

theorem append_conversation_convs (st : Option SessionContext) (sid q r : String)
    (m : List (String × Json)) (now : Nat) :
    (append_conversation st sid q r m now).conversations =
      lastN 50 (convsOf st ++ [⟨now, q, r, m⟩]) := by
  cases st with
  | none => simp [append_conversation, convsOf, ← keep_last_eq]
  | some ctx => simp [append_conversation, convsOf, ← keep_last_eq]

theorem lastN_append_lastN (n : Nat) (xs ys : List α) :
    lastN n (lastN n xs ++ ys) = lastN n (xs ++ ys) := by
  unfold lastN
  rw [← List.drop_append_of_le_length (Nat.sub_le _ _), List.drop_drop]
  congr 1
  simp only [List.length_append, List.length_drop]
  omega

theorem append_run_convs (sid : String) :
    ∀ (items : List AppendInput) (st : Option SessionContext) (pre : List ConversationTurn),
      convsOf st = lastN 50 pre →
      convsOf (append_run sid st items) = lastN 50 (pre ++ items.map inputTurn) := by
  intro items
  induction items with
  | nil =>
    intro st pre h
    simpa [append_run] using h
  | cons it rest ih =>
    intro st pre h
    have step : convsOf (some (append_conversation st sid it.query it.response it.metadata it.now)) =
        lastN 50 (pre ++ [inputTurn it]) := by
      show (append_conversation st sid it.query it.response it.metadata it.now).conversations = _
      rw [append_conversation_convs, h, lastN_append_lastN]
      simp [inputTurn]
    have := ih (some (append_conversation st sid it.query it.response it.metadata it.now))
      (pre ++ [inputTurn it]) step
    simpa [append_run] using this

theorem braceSum_nil : braceSum [] = 0 := rfl

theorem braceSum_cons (c : Char) (cs : List Char) :
    braceSum (c :: cs) = braceDelta c + braceSum cs := by
  simp [braceSum]

theorem braceSum_append (a b : List Char) : braceSum (a ++ b) = braceSum a + braceSum b := by
  simp [braceSum]

theorem braceSum_eq_zero_of_flat {cs : List Char} (h : ∀ c ∈ cs, braceDelta c = 0) :
    braceSum cs = 0 := by
  induction cs with
  | nil => rfl
  | cons c cs ih =>
    rw [braceSum_cons, h c (by simp), ih fun d hd => h d (by simp [hd])]
    ring

theorem FlatTick.good {cs : List Char} (h : FlatTick cs) : GoodChunk cs := by
  refine ⟨⟨braceSum_eq_zero_of_flat fun c hc => (h c hc).1, ?_⟩, ?_⟩
  · intro j
    rw [braceSum_eq_zero_of_flat fun c hc => (h c (List.mem_of_mem_take hc)).1]
  · intro hmem
    exact (h btick hmem).2 rfl

theorem FlatTick_append {a b : List Char} (ha : FlatTick a) (hb : FlatTick b) :
    FlatTick (a ++ b) :=
  fun c hc => (List.mem_append.mp hc).elim (ha c) (hb c)

theorem GoodChunk_append {a b : List Char} (ha : GoodChunk a) (hb : GoodChunk b) :
    GoodChunk (a ++ b) := by
  obtain ⟨⟨hsa, hpa⟩, hta⟩ := ha
  obtain ⟨⟨hsb, hpb⟩, htb⟩ := hb
  refine ⟨⟨?_, ?_⟩, ?_⟩
  · rw [braceSum_append, hsa, hsb]
    ring
  · intro j
    rw [List.take_append_eq_append_take, braceSum_append]
    have := hpa j
    have := hpb (j - a.length)
    omega
  · intro hmem
    rcases List.mem_append.mp hmem with h | h
    · exact hta h
    · exact htb h

theorem startsWithL_append_self (p x : List Char) : startsWithL (p ++ x) p = true := by
  induction p with
  | nil => simp [startsWithL]
  | cons c cs ih => simp [startsWithL, ih]

theorem findSub_starts {cs pat : List Char} (h : startsWithL cs pat = true) :
    findSub cs pat = some 0 := by
  cases cs with
  | nil => simp [findSub, h]
  | cons c cs => simp [findSub, h]

theorem findSub_shift (c0 : Char) (tl pat : List Char) (hpat : pat = c0 :: tl) :
    ∀ (u tail : List Char), (∀ c ∈ u, c ≠ c0) →
      findSub (u ++ tail) pat = (findSub tail pat).map (· + u.length) := by
  intro u
  induction u with
  | nil =>
    intro tail _
    cases hf : findSub tail pat <;> simp [hf]
  | cons c cs ih =>
    intro tail hu
    have hc : c ≠ c0 := hu c (by simp)
    have hns : startsWithL (c :: (cs ++ tail)) pat = false := by
      rw [hpat]
      simp [startsWithL, hc]
    have key : findSub ((c :: cs) ++ tail) pat = (findSub (cs ++ tail) pat).map (· + 1) := by
      rw [List.cons_append, findSub, hns]
      simp
    rw [key, ih tail fun d hd => hu d (by simp [hd])]
    cases hf : findSub tail pat with
    | none => simp
    | some i =>
      exact congrArg some (by simp only [Function.comp, List.length_cons]; omega)

theorem pySplitF_two {cs pat : List Char} {i : Nat} (fuel : Nat) (h : 2 ≤ fuel)
    (hi : findSub cs pat = some i) (hn : findSub (cs.drop (i + pat.length)) pat = none) :
    pySplitF fuel cs pat = [cs.take i, cs.drop (i + pat.length)] := by
  match fuel, h with
  | f + 2, _ =>
    simp [pySplitF, hi, hn]

theorem findMatch_through :
    ∀ (s : List Char) (count : Int) (i : Nat) (rest : List Char),
      (∀ j, j < s.length → 0 < count + braceSum (s.take (j + 1))) →
      findMatch (s ++ rest) count i = findMatch rest (count + braceSum s) (i + s.length) := by
  intro s
  induction s with
  | nil =>
    intro count i rest _
    simp [braceSum]
  | cons c cs ih =>
    intro count i rest h
    have h0 : 0 < count + braceDelta c := by
      have h' := h 0 (by simp)
      simpa [braceSum_cons, braceSum_nil] using h'
    have hstep : ∀ j, j < cs.length → 0 < (count + braceDelta c) + braceSum (cs.take (j + 1)) := by
      intro j hj
      have h' := h (j + 1) (by simpa using Nat.succ_lt_succ hj)
      rw [List.take_succ_cons, braceSum_cons] at h'
      omega
    have hsum : braceSum (c :: cs) = braceDelta c + braceSum cs := braceSum_cons c cs
    by_cases hc : c = obr
    · subst hc
      have hδ : braceDelta obr = 1 := by decide
      rw [List.cons_append, findMatch, if_pos rfl, ih (count + 1) (i + 1) rest (by
        intro j hj
        have := hstep j hj
        rw [hδ] at this
        omega)]
      rw [hsum, hδ]
      congr 1
      · ring
      · simp only [List.length_cons]
        omega
    · by_cases hc2 : c = cbr
      · subst hc2
        have hδ : braceDelta cbr = -1 := by decide
        have hobr : cbr ≠ obr := by decide
        have hne : ¬ count - 1 = 0 := by
          rw [hδ] at h0
          omega
        rw [List.cons_append, findMatch, if_neg hobr, if_pos rfl, if_neg hne,
          ih (count - 1) (i + 1) rest (by
            intro j hj
            have := hstep j hj
            rw [hδ] at this
            omega)]
        rw [hsum, hδ]
        congr 1
        · ring
        · simp only [List.length_cons]
          omega
      · have hδ : braceDelta c = 0 := by simp [braceDelta, hc, hc2]
        rw [List.cons_append, findMatch, if_neg hc, if_neg hc2,
          ih count (i + 1) rest (by
            intro j hj
            have := hstep j hj
            rw [hδ] at this
            omega)]
        rw [hsum, hδ]
        congr 1
        · ring
        · simp only [List.length_cons]
          omega

theorem FlatTick_nil : FlatTick [] := by
  intro c hc
  cases hc

theorem FlatTick_cons {c : Char} {cs : List Char}
    (hc : braceDelta c = 0 ∧ c ≠ btick) (h : FlatTick cs) : FlatTick (c :: cs) := by
  intro d hd
  rcases List.mem_cons.mp hd with rfl | hmem
  · exact hc
  · exact h d hmem

theorem digitChar_flat {d : Nat} (h : d < 10) :
    braceDelta (digitChar d) = 0 ∧ digitChar d ≠ btick := by
  interval_cases d <;> exact ⟨by decide, by decide⟩

theorem natToCharsAux_flat :
    ∀ (fuel n : Nat) (acc : List Char), FlatTick acc → FlatTick (natToCharsAux fuel n acc)
  | 0, _, _, hacc => hacc
  | fuel + 1, n, acc, hacc => by
    rw [natToCharsAux]
    split
    · exact FlatTick_cons (digitChar_flat (by omega)) hacc
    · exact natToCharsAux_flat fuel (n / 10)
        (digitChar (n % 10) :: acc)
        (FlatTick_cons (digitChar_flat (Nat.mod_lt _ (by omega))) hacc)

theorem intToChars_flat (n : Int) : FlatTick (intToChars n) := by
  unfold intToChars natToChars
  split
  · exact FlatTick_cons ⟨by decide, by decide⟩ (natToCharsAux_flat _ _ _ FlatTick_nil)
  · exact natToCharsAux_flat _ _ _ FlatTick_nil

theorem escChar_flat {c : Char} (h : charOkB c = true) : FlatTick (escChar c) := by
  simp only [charOkB, Bool.and_eq_true, decide_eq_true_eq] at h
  obtain ⟨⟨⟨⟨h32, h127⟩, hob⟩, hcb⟩, hbt⟩ := h
  unfold escChar
  split
  · exact FlatTick_cons ⟨by decide, by decide⟩ (FlatTick_cons ⟨by decide, by decide⟩ FlatTick_nil)
  · split
    · exact FlatTick_cons ⟨by decide, by decide⟩ (FlatTick_cons ⟨by decide, by decide⟩ FlatTick_nil)
    · split
      · next hq =>
        rw [hq] at h32
        exact absurd h32 (by decide)
      · split
        · next hq =>
          rw [hq] at h32
          exact absurd h32 (by decide)
        · split
          · next hq =>
            rw [hq] at h32
            exact absurd h32 (by decide)
          · split
            · next hq =>
              rw [hq] at h32
              exact absurd h32 (by decide)
            · split
              · next hq =>
                rw [hq] at h32
                exact absurd h32 (by decide)
              · split
                · next hq =>
                  simp only [Bool.or_eq_true, decide_eq_true_eq] at hq
                  omega
                · refine FlatTick_cons ⟨?_, hbt⟩ FlatTick_nil
                  simp [braceDelta, hob, hcb]

theorem dumpsStr_flat (s : String) (h : s.toList.all charOkB = true) :
    FlatTick (dumpsStr s) := by
  unfold dumpsStr
  refine FlatTick_cons ⟨by decide, by decide⟩ ?_
  refine FlatTick_append ?_ (FlatTick_cons ⟨by decide, by decide⟩ FlatTick_nil)
  intro c hc
  obtain ⟨piece, hpiece, hcp⟩ := List.mem_flatten.mp hc
  obtain ⟨d, hd, rfl⟩ := List.mem_map.mp hpiece
  have hok : charOkB d = true := by
    rw [List.all_eq_true] at h
    exact h d hd
  exact escChar_flat hok c hcp

theorem Good_wrap_braces {inner : List Char} (h : GoodChunk inner) :
    GoodChunk ((obr :: inner) ++ [cbr]) := by
  obtain ⟨⟨hsum, hpre⟩, htick⟩ := h
  have hobr : braceDelta obr = 1 := by decide
  have hcbr : braceSum [cbr] = -1 := by decide
  refine ⟨⟨?_, ?_⟩, ?_⟩
  · rw [List.cons_append, braceSum_cons, braceSum_append, hsum, hobr, hcbr]
    ring
  · intro j
    cases j with
    | zero => simp [braceSum]
    | succ k =>
      rw [List.cons_append, List.take_succ_cons, braceSum_cons,
        List.take_append_eq_append_take, braceSum_append, hobr]
      have hle : braceSum (List.take (k - inner.length) [cbr]) = 0 ∨
          braceSum (List.take (k - inner.length) [cbr]) = -1 := by
        cases k - inner.length with
        | zero => left; rfl
        | succ m =>
          right
          rw [List.take_of_length_le (by simp)]
          exact hcbr
      have hk := hpre k
      rcases hle with h0 | h0 <;> omega
  · intro hmem
    rw [List.cons_append] at hmem
    rcases List.mem_cons.mp hmem with hq | hmem2
    · exact absurd hq.symm (by decide)
    · rcases List.mem_append.mp hmem2 with hq | hq
      · exact htick hq
      · simp only [List.mem_singleton] at hq
        exact absurd hq.symm (by decide)

mutual

theorem dumpsV_good : ∀ v : Json, plainV v = true → GoodChunk (dumpsV v)
  | .null, _ => FlatTick.good (by
      intro c hc
      fin_cases hc <;> exact ⟨by decide, by decide⟩)
  | .bool true, _ => FlatTick.good (by
      intro c hc
      fin_cases hc <;> exact ⟨by decide, by decide⟩)
  | .bool false, _ => FlatTick.good (by
      intro c hc
      fin_cases hc <;> exact ⟨by decide, by decide⟩)
  | .num n, _ => FlatTick.good (intToChars_flat n)
  | .str s, h => FlatTick.good (dumpsStr_flat s (by simpa [plainV] using h))
  | .arr xs, h => by
    have hxs : plainA xs = true := by simpa [plainV] using h
    show GoodChunk ((['['] ++ dumpsA xs) ++ [']'])
    exact GoodChunk_append
      (GoodChunk_append
        (FlatTick.good (FlatTick_cons ⟨by decide, by decide⟩ FlatTick_nil))
        (dumpsA_good xs hxs))
      (FlatTick.good (FlatTick_cons ⟨by decide, by decide⟩ FlatTick_nil))
  | .obj fs, h => by
    have hfs : plainF fs = true := by simpa [plainV] using h
    exact Good_wrap_braces (dumpsF_good fs hfs)

theorem dumpsA_good : ∀ xs : List Json, plainA xs = true → GoodChunk (dumpsA xs)
  | [], _ => FlatTick.good FlatTick_nil
  | [x], h => dumpsV_good x (by simpa [plainA] using h)
  | x :: y :: xs, h => by
    have hx : plainV x = true ∧ plainA (y :: xs) = true := by
      simpa [plainA, Bool.and_eq_true] using h
    show GoodChunk ((dumpsV x ++ [',', ' ']) ++ dumpsA (y :: xs))
    exact GoodChunk_append (GoodChunk_append (dumpsV_good x hx.1)
      (FlatTick.good (by
        intro c hc
        fin_cases hc <;> exact ⟨by decide, by decide⟩)))
      (dumpsA_good (y :: xs) hx.2)

theorem dumpsF_good : ∀ fs : List (String × Json), plainF fs = true → GoodChunk (dumpsF fs)
  | [], _ => FlatTick.good FlatTick_nil
  | [(k, v)], h => by
    have hk : (k.toList.all charOkB = true ∧ plainV v = true) := by
      simpa [plainF, Bool.and_eq_true] using h
    show GoodChunk ((dumpsStr k ++ [':', ' ']) ++ dumpsV v)
    exact GoodChunk_append (GoodChunk_append (FlatTick.good (dumpsStr_flat k hk.1))
      (FlatTick.good (by
        intro c hc
        fin_cases hc <;> exact ⟨by decide, by decide⟩)))
      (dumpsV_good v hk.2)
  | (k, v) :: f :: fs, h => by
    have hk : k.toList.all charOkB = true ∧ plainV v = true ∧ plainF (f :: fs) = true := by
      simpa [plainF, Bool.and_eq_true, and_assoc] using h
    show GoodChunk (((((dumpsStr k ++ [':', ' ']) ++ dumpsV v) ++ [',', ' ']) ++ dumpsF (f :: fs)))
    exact GoodChunk_append (GoodChunk_append (GoodChunk_append (GoodChunk_append
      (FlatTick.good (dumpsStr_flat k hk.1))
      (FlatTick.good (by
        intro c hc
        fin_cases hc <;> exact ⟨by decide, by decide⟩)))
      (dumpsV_good v hk.2.1))
      (FlatTick.good (by
        intro c hc
        fin_cases hc <;> exact ⟨by decide, by decide⟩)))
      (dumpsF_good (f :: fs) hk.2.2)

end

theorem hasSub_singleton_of_mem {c : Char} {cs : List Char} (h : c ∈ cs) :
    hasSub cs [c] = true := by
  induction cs with
  | nil => cases h
  | cons d ds ih =>
    rcases List.mem_cons.mp h with rfl | hmem
    · simp [hasSub, findSub, startsWithL]
    · by_cases hd : startsWithL (d :: ds) [c] = true
      · simp [hasSub, findSub, hd]
      · have := ih hmem
        simp only [hasSub, findSub] at this ⊢
        rw [if_neg (by simp [hd])]
        simpa using this

theorem findSub_none_of_notMem {c0 : Char} {tl cs : List Char} (h : c0 ∉ cs) :
    findSub cs (c0 :: tl) = none := by
  have := findSub_shift c0 tl (c0 :: tl) rfl cs [] (fun c hc => by
    intro heq
    exact h (heq ▸ hc))
  rw [List.append_nil] at this
  rw [this]
  have hnil : findSub [] (c0 :: tl) = none := by
    simp [findSub, startsWithL]
  rw [hnil]
  rfl

theorem findMatch_obj (fs : List (String × Json)) (h : plainF fs = true)
    (rest : List Char) (i : Nat) :
    findMatch (dumpsV (.obj fs) ++ rest) 0 i = some (i + (dumpsV (.obj fs)).length) := by
  obtain ⟨⟨hsum, hpre⟩, _⟩ := dumpsF_good fs h
  have hshape : dumpsV (.obj fs) = (obr :: dumpsF fs) ++ [cbr] := rfl
  rw [hshape]
  have hassoc : ((obr :: dumpsF fs) ++ [cbr]) ++ rest = obr :: (dumpsF fs ++ (cbr :: rest)) := by
    simp
  rw [hassoc, findMatch, if_pos rfl]
  rw [findMatch_through (dumpsF fs) (0 + 1) (i + 1) (cbr :: rest) (by
    intro j hj
    have := hpre (j + 1)
    omega)]
  rw [hsum]
  have hne : cbr ≠ obr := by decide
  rw [findMatch, if_neg hne, if_pos rfl]
  rw [if_pos (by ring)]
  congr 1
  simp only [List.length_append, List.length_cons, List.length_nil]
  omega

theorem pyStrip_fence_body (mid : List Char) :
    pyStrip ('\n' :: (((obr :: mid) ++ [cbr]) ++ ['\n'])) = (obr :: mid) ++ [cbr] := by
  have hn : isPyWs '\n' = true := by decide
  have ho : isPyWs obr = false := by decide
  have hc : isPyWs cbr = false := by decide
  unfold pyStrip
  rw [List.dropWhile_cons, if_pos hn]
  have h1 : (((obr :: mid) ++ [cbr]) ++ ['\n']) = obr :: ((mid ++ [cbr]) ++ ['\n']) := by
    simp
  rw [h1, List.dropWhile_cons, if_neg (by simp [ho])]
  have h2 : (obr :: ((mid ++ [cbr]) ++ ['\n'])).reverse =
      '\n' :: (cbr :: (mid.reverse ++ [obr])) := by
    simp
  rw [h2, List.dropWhile_cons, if_pos hn, List.dropWhile_cons, if_neg (by simp [hc])]
  simp

theorem fence_strip_fence {mid : List Char}
    (hticks : btick ∉ ((obr :: mid) ++ [cbr])) :
    fence_strip (fence_wrap ((obr :: mid) ++ [cbr])) = (obr :: mid) ++ [cbr] := by
  set s : List Char := (obr :: mid) ++ [cbr] with hs
  have hsids : ∀ c ∈ ('\n' :: (s ++ ['\n'])), c ≠ btick := by
    intro c hc hceq
    subst hceq
    rcases List.mem_cons.mp hc with hq | hmem
    · exact absurd hq.symm (by decide)
    · rcases List.mem_append.mp hmem with hq | hq
      · exact hticks hq
      · simp only [List.mem_singleton] at hq
        exact absurd hq.symm (by decide)
  have hw : fence_wrap s = tickJsonPat ++ (('\n' :: (s ++ ['\n'])) ++ tickPat) := by
    simp [fence_wrap]
  have hfind1 : findSub (fence_wrap s) tickJsonPat = some 0 := by
    rw [hw]
    exact findSub_starts (startsWithL_append_self _ _)
  have hdrop1 : (fence_wrap s).drop (0 + tickJsonPat.length) =
      ('\n' :: (s ++ ['\n'])) ++ tickPat := by
    rw [hw]
    simp [List.drop_left]
  have hnone1 : findSub ((('\n' :: (s ++ ['\n'])) ++ tickPat)) tickJsonPat = none := by
    rw [findSub_shift btick _ tickJsonPat rfl _ _ hsids]
    rw [show findSub tickPat tickJsonPat = none from by decide]
    rfl
  have hsplit1 : pySplit (fence_wrap s) tickJsonPat =
      [[], ('\n' :: (s ++ ['\n'])) ++ tickPat] := by
    unfold pySplit
    rw [pySplitF_two _ (by
        rw [hw]
        simp
        omega)
      hfind1 (by rw [hdrop1]; exact hnone1)]
    rw [hdrop1]
    simp
  have hfind2 : findSub (('\n' :: (s ++ ['\n'])) ++ tickPat) tickPat =
      some ('\n' :: (s ++ ['\n'])).length := by
    rw [findSub_shift btick _ tickPat rfl _ _ hsids, findSub_self]
    simp
  have hdrop2 : ((('\n' :: (s ++ ['\n'])) ++ tickPat)).drop
      (('\n' :: (s ++ ['\n'])).length + tickPat.length) = [] := by
    rw [List.drop_append]
    rfl
  have hsplit2 : pySplit (('\n' :: (s ++ ['\n'])) ++ tickPat) tickPat =
      ['\n' :: (s ++ ['\n']), []] := by
    unfold pySplit
    rw [pySplitF_two _ (by simp) hfind2 (by rw [hdrop2]; rfl)]
    rw [hdrop2, List.take_left]
  have hhas : hasSub (fence_wrap s) tickJsonPat = true := by
    rw [hasSub, hfind1]
    rfl
  rw [fence_strip, if_pos hhas, hsplit1]
  simp only [List.getD_cons_succ, List.getD_cons_zero]
  rw [hsplit2]
  simp only [List.getD_cons_zero]
  exact pyStrip_fence_body mid

theorem fence_strip_id {t : List Char} (ht : btick ∉ t) : fence_strip t = t := by
  have hmem : ∀ c ∈ t, c ≠ btick := fun c hc hceq => ht (hceq ▸ hc)
  have h1 : findSub t tickJsonPat = none := findSub_none_of_notMem ht
  have h2 : findSub t tickPat = none := findSub_none_of_notMem ht
  rw [fence_strip, if_neg (by simp [hasSub, h1]), if_neg (by simp [hasSub, h2])]

theorem brace_phase_obj (fs : List (String × Json)) (h : plainF fs = true) (p : List Char) :
    brace_phase (dumpsV (.obj fs) ++ p) = dumpsV (.obj fs) := by
  have hshape : dumpsV (.obj fs) = (obr :: dumpsF fs) ++ [cbr] := rfl
  have hobr : hasSub (dumpsV (.obj fs) ++ p) [obr] = true := by
    apply hasSub_singleton_of_mem
    rw [hshape]
    simp
  have hcbr : hasSub (dumpsV (.obj fs) ++ p) [cbr] = true := by
    apply hasSub_singleton_of_mem
    rw [hshape]
    simp
  have hfind : findSub (dumpsV (.obj fs) ++ p) [obr] = some 0 := by
    apply findSub_starts
    rw [hshape]
    simp [startsWithL]
  have hmatch : findMatch ((dumpsV (.obj fs) ++ p).drop 0) 0 0 =
      some (0 + (dumpsV (.obj fs)).length) := by
    rw [List.drop_zero]
    exact findMatch_obj fs h p 0
  have hlen : 0 < (dumpsV (.obj fs)).length := by
    rw [hshape]
    simp
  unfold brace_phase
  rw [hobr, hcbr, hfind]
  simp only [Bool.and_self, if_true]
  rw [hmatch]
  simp only [Nat.zero_add]
  rw [if_pos hlen, List.drop_zero, Nat.sub_zero, List.take_left]

/-! ## Claim theorems -/

/-- C6: starting from an absent session, iterated `append_conversation`
leaves exactly the most recent 50 turns in oldest-first order — in
particular 55 appends leave turns 6 through 55 — and after every append
the stored context holds at most 50 turns. -/
theorem claim6_main (sid : String) (items : List AppendInput) :
    convsOf (append_run sid none items) = lastN 50 (items.map inputTurn) ∧
    (convsOf (append_run sid none items)).length ≤ 50 ∧
    (items.length = 55 →
      convsOf (append_run sid none items) = (items.drop 5).map inputTurn) := by
  have base : convsOf (none : Option SessionContext) = lastN 50 [] := by
    simp [convsOf, lastN]
  have main := append_run_convs sid items none [] base
  simp only [List.nil_append] at main
  refine ⟨main, ?_, ?_⟩
  · rw [main]
    simp only [lastN, List.length_drop, List.length_map]
    omega
  · intro h55
    rw [main]
    simp only [lastN, List.length_map, h55]
    exact Eq.symm (List.map_drop inputTurn items 5)

/-- C6 witness: 55 concrete appends on one session keep exactly the last
50 turns, that is the inputs from the sixth on. -/
theorem claim6_witness :
    (((List.range 55).map fun i =>
        (⟨"Q" ++ toString (i + 1), "R", [], i⟩ : AppendInput)).length = 55) ∧
    convsOf (append_run "s" none ((List.range 55).map fun i =>
        (⟨"Q" ++ toString (i + 1), "R", [], i⟩ : AppendInput))) =
      ((((List.range 55).map fun i =>
        (⟨"Q" ++ toString (i + 1), "R", [], i⟩ : AppendInput)).drop 5).map inputTurn) := by
  refine ⟨by decide, ?_⟩
  exact (claim6_main "s" _).2.2 (by decide)

/-- C3 counterexample: with an *empty* tool catalog the cached snapshot
is falsy, so the second of two sequential `get_tools` calls one second
apart — far inside the five-minute TTL — performs a remote fetch again,
refuting "a call made before TTL expiry of the last fetch triggers no
remote fetch" as stated for every catalog. -/
theorem claim3_counterexample :
    (get_tools ⟨none, none⟩ 0 []).2.2 = true ∧
    (get_tools (get_tools ⟨none, none⟩ 0 []).2.1 1 []).2.2 = true ∧
    ((1 : Int) - 0 < cache_ttl) := by
  refine ⟨rfl, rfl, by decide⟩

/-- C3 amended: for every *non-empty* cached snapshot, a `get_tools`
call before TTL expiry of the last fetch returns the cached snapshot
unchanged, leaves the cache state unchanged, and triggers no remote
fetch (so sequential calls fetch at most once per TTL window); an empty
cached catalog is falsy under the line-41 truthiness guard and refetches
on every call. -/
theorem claim3_amended (c f : List ToolDesc) (t now : Int)
    (hne : c ≠ []) (hfresh : now - t < cache_ttl) :
    get_tools ⟨some c, some t⟩ now f = (c, ⟨some c, some t⟩, false) := by
  simp [get_tools, hne, hfresh]

/-- C3 witness: a concrete one-element snapshot fetched at time 0 is
served from cache at time 1. -/
theorem claim3_witness :
    get_tools ⟨some [⟨"list_projects", "d", Json.null⟩], some 0⟩ 1 [] =
      ([⟨"list_projects", "d", Json.null⟩],
        ⟨some [⟨"list_projects", "d", Json.null⟩], some 0⟩, false) :=
  claim3_amended [⟨"list_projects", "d", Json.null⟩] [] 0 1 (by decide) (by decide)

/-- C9: when the extracted textual content of a completed tool call is
not valid JSON, `call_tool` does not raise but returns `{"raw": text}`;
and content that is neither a string nor a dict after extraction is
likewise stringified into `{"raw": str(content)}`. -/
theorem claim9_main :
    (∀ (c : McpContent) (s : String),
      extract_content c = some (.txt s) → jsonParseS s = none →
      call_tool_result c = some (.obj [("raw", .str s)])) ∧
    (∀ rep : String, call_tool_result (.ofOther rep) = some (.obj [("raw", .str rep)])) := by
  constructor
  · intro c s hext hparse
    simp [call_tool_result, hext, parse_phase, hparse]
  · intro rep
    simp [call_tool_result, extract_content, parse_phase]

/-- C9 witness: a content list with one text item that is not JSON comes
back as `{"raw": ...}`. -/
theorem claim9_witness :
    extract_content (.ofList [.textAttr "not json"] "rep") = some (.txt "not json") ∧
    jsonParseS "not json" = none ∧
    call_tool_result (.ofList [.textAttr "not json"] "rep") =
      some (.obj [("raw", .str "not json")]) :=
  ⟨by decide, by decide,
    claim9_main.1 (.ofList [.textAttr "not json"] "rep") "not json" (by decide) (by decide)⟩

/-- C10: the fallback formatter for `list_applications` answers exactly
"No applications found." for every result dict lacking an
`"applications"` key (even one carrying a non-empty `"results"` list),
while the `list_projects` formatter selects the `"results"` key before
the `"projects"` key. -/
theorem claim10_main :
    (∀ d : List (String × Json), pyGet d "applications" = none →
      format_application_list d = some "No applications found.") ∧
    (∀ (d : List (String × Json)) (v : Json), pyGet d "results" = some v →
      format_project_list d = format_project_list_selected v) := by
  constructor
  · intro d h
    simp [format_application_list, pyGetD, h, pyTruthy]
  · intro d v h
    simp [format_project_list, pyGetD, h]

/-- C10 witness: a `{"results": [one project]}` dict — non-empty list,
no `"applications"` key — still formats as "No applications found."
under the `list_applications` fallback, and the same key under
`list_projects` is the one selected. -/
theorem claim10_witness :
    pyGet [("results", Json.arr [Json.obj [("id", Json.num 1), ("name", Json.str "Alpha")]])]
        "applications" = none ∧
    format_application_list
        [("results", Json.arr [Json.obj [("id", Json.num 1), ("name", Json.str "Alpha")]])] =
      some "No applications found." ∧
    format_project_list
        [("results", Json.arr [Json.obj [("id", Json.num 1), ("name", Json.str "Alpha")]])] =
      format_project_list_selected
        (Json.arr [Json.obj [("id", Json.num 1), ("name", Json.str "Alpha")]]) :=
  ⟨by decide,
    claim10_main.1 _ (by decide),
    claim10_main.2 _ _ (by decide)⟩

/-- C2: the message list `select_tool` sends to the completion service is
a single user message containing only the rendered catalog and the
current query — no prior conversation turns and no assistant messages,
whatever the session history holds (the method accepts no history
parameter; the `conversation_history=` keyword `main.py` passes at lines
216–220 is not in its signature and raises `TypeError` at call time). -/
theorem claim2_main (tools_description query : String) :
    (select_tool_messages tools_description query).length = 1 ∧
    (select_tool_messages tools_description query).all (fun m => m.role == "user") = true :=
  ⟨rfl, rfl⟩

theorem toList_mk (l : List Char) : (String.mk l).toList = l := rfl

theorem strHasSub_append_right (x raw : String) : strHasSub (x ++ raw) raw = true := by
  have h : (x ++ raw).toList = x.toList ++ raw.toList := by
    show (x ++ raw).data = x.data ++ raw.data
    simp
  rw [strHasSub, h]
  exact hasSub_append_right _ _

theorem select_tool_parse_fail (c : String)
    (hp : jsonParseS (String.mk (extractJsonChars (pyStrip c.toList))) = none) :
    select_tool c = .error ("Failed to parse Claude response as JSON: " ++ jsonDecodeErrDetail ++
      "\n\nRaw Claude response:\n" ++ String.mk (pyStrip c.toList)) := by
  simp only [select_tool, toList_mk, hp]

theorem select_tool_null_tool (c : String) (fs : List (String × Json))
    (hp : jsonParseS (String.mk (extractJsonChars (pyStrip c.toList))) = some (.obj fs))
    (hn : pyGet fs "tool_name" = none ∨ pyGet fs "tool_name" = some .null) :
    select_tool c = .error ("Claude tool selection failed: Tool selection failed: " ++
      pyStr (pyGetD fs "error" (.str "No tool selected")) ++
      "\n\nRaw Claude response:\n" ++ String.mk (pyStrip c.toList)) := by
  have hd : pyGetD fs "tool_name" .null = .null := by
    rcases hn with h | h <;> simp [pyGetD, h]
  simp only [select_tool, toList_mk, hp, hd]
  simp [pyTruthy]

/-- C4 counterexample: the brace scan does not special-case braces
inside JSON string literals.  For the object `{"a": "{"}` the plain
serialization parses back to the object (the count never returns to
zero, so the text is kept whole), but the same serialization followed by
trailing prose is also kept whole and then fails to parse — the three
presentations do not extract to the same object, refuting the claim as
stated for every JSON object. -/
theorem claim4_counterexample :
    jsonParse (extractJsonChars (dumpsV (Json.obj [("a", Json.str "\x7b")]))) =
      some (Json.obj [("a", Json.str "\x7b")]) ∧
    jsonParse (extractJsonChars (dumpsV (Json.obj [("a", Json.str "\x7b")]) ++ " ok".toList)) =
      none := by
  refine ⟨by decide, by decide⟩

/-- C4 amended: for every JSON object O whose strings (keys and values)
use only printable ASCII free of braces and backticks, and every trailing
prose free of backticks, the intent-resolution extraction selects exactly
the serialization of O from (a) the plain text, (b) the
```json-fenced text and (c) the text followed by the prose — hence
`json.loads` yields the same parsed object in all three cases. -/
theorem claim4_amended (fs : List (String × Json)) (p : List Char)
    (hplain : plainF fs = true) (hp : btick ∉ p) :
    extractJsonChars (dumpsV (.obj fs)) = dumpsV (.obj fs) ∧
    extractJsonChars (fence_wrap (dumpsV (.obj fs))) = dumpsV (.obj fs) ∧
    extractJsonChars (dumpsV (.obj fs) ++ p) = dumpsV (.obj fs) ∧
    jsonParse (extractJsonChars (fence_wrap (dumpsV (.obj fs)))) =
      jsonParse (extractJsonChars (dumpsV (.obj fs))) ∧
    jsonParse (extractJsonChars (dumpsV (.obj fs) ++ p)) =
      jsonParse (extractJsonChars (dumpsV (.obj fs))) := by
  have hgood := dumpsV_good (.obj fs) (by simpa [plainV] using hplain)
  have htick : btick ∉ dumpsV (.obj fs) := hgood.2
  have hshape : dumpsV (.obj fs) = (obr :: dumpsF fs) ++ [cbr] := rfl
  have ha : extractJsonChars (dumpsV (.obj fs)) = dumpsV (.obj fs) := by
    unfold extractJsonChars
    rw [fence_strip_id htick]
    have hb0 := brace_phase_obj fs hplain []
    rwa [List.append_nil] at hb0
  have hc : extractJsonChars (dumpsV (.obj fs) ++ p) = dumpsV (.obj fs) := by
    unfold extractJsonChars
    have htp : btick ∉ dumpsV (.obj fs) ++ p := by
      intro hmem
      rcases List.mem_append.mp hmem with hq | hq
      · exact htick hq
      · exact hp hq
    rw [fence_strip_id htp]
    exact brace_phase_obj fs hplain p
  have hb : extractJsonChars (fence_wrap (dumpsV (.obj fs))) = dumpsV (.obj fs) := by
    unfold extractJsonChars
    rw [hshape] at htick ⊢
    rw [fence_strip_fence htick, ← hshape]
    have hb0 := brace_phase_obj fs hplain []
    rwa [List.append_nil] at hb0
  exact ⟨ha, hb, hc, by rw [hb, ha], by rw [hc, ha]⟩

/-- C4 witness: the three presentations of `{"a": 1}` with prose
" trailing prose" all extract to the same serialization. -/
theorem claim4_witness :
    extractJsonChars (dumpsV (Json.obj [("a", Json.num 1)])) =
      dumpsV (Json.obj [("a", Json.num 1)]) ∧
    extractJsonChars (fence_wrap (dumpsV (Json.obj [("a", Json.num 1)]))) =
      dumpsV (Json.obj [("a", Json.num 1)]) ∧
    extractJsonChars (dumpsV (Json.obj [("a", Json.num 1)]) ++ " trailing prose".toList) =
      dumpsV (Json.obj [("a", Json.num 1)]) :=
  ⟨(claim4_amended [("a", Json.num 1)] " trailing prose".toList (by decide) (by decide)).1,
   (claim4_amended [("a", Json.num 1)] " trailing prose".toList (by decide) (by decide)).2.1,
   (claim4_amended [("a", Json.num 1)] " trailing prose".toList (by decide) (by decide)).2.2.1⟩

/-- C1 counterexample: a request whose intent resolution, tool call and
formatting all succeed but whose Redis append fails returns
`success=false` with the persistence error in the envelope's `error`
field — the append sits inside the endpoint's outer `try`, so its
exception reaches the line-313 handler instead of being absorbed. -/
theorem claim1_counterexample :
    (process_query "list projects" "sid" none 0
      { tools := [⟨"list_projects", "d", Json.null⟩],
        selectRes := .ok ("list_projects", Json.obj []),
        callPrimary := .ok (Json.obj [("results", Json.arr [])]),
        callSecondary := .error "unused",
        formatRes := .ok "resp",
        persistRes := .error "redis down" }).1.success = false ∧
    (process_query "list projects" "sid" none 0
      { tools := [⟨"list_projects", "d", Json.null⟩],
        selectRes := .ok ("list_projects", Json.obj []),
        callPrimary := .ok (Json.obj [("results", Json.arr [])]),
        callSecondary := .error "unused",
        formatRes := .ok "resp",
        persistRes := .error "redis down" }).1.error = some "redis down" ∧
    (process_query "list projects" "sid" none 0
      { tools := [⟨"list_projects", "d", Json.null⟩],
        selectRes := .ok ("list_projects", Json.obj []),
        callPrimary := .ok (Json.obj [("results", Json.arr [])]),
        callSecondary := .error "unused",
        formatRes := .ok "resp",
        persistRes := .error "redis down" }).1.response = "An error occurred: redis down" := by
  refine ⟨rfl, rfl, rfl⟩

/-- C1 amended: when intent resolution, tool invocation and formatting
(primary or fallback) succeed but the session-store append fails, the
exception reaches the generic handler: `process_query` returns
`success=false` with the persistence error surfaced in `error`, the
formatted response is discarded in favour of "An error occurred: …", and
the store is left unchanged. -/
theorem claim1_amended (query session_id : String) (store : Option SessionContext) (now : Nat)
    (fx : Effects) (tn : String) (args r0 : Json) (fmt e : String)
    (htools : fx.tools ≠ [])
    (hsel : fx.selectRes = .ok (tn, args))
    (hcall : fx.callPrimary = .ok r0)
    (hfmt : format_step tn (multi_intent_merge (needs_both_query query) tn r0 fx.callSecondary)
      fx.formatRes = .ok fmt)
    (hpersist : fx.persistRes = .error e) :
    (process_query query session_id store now fx).1 =
      ⟨"An error occurred: " ++ e, false, session_id, none, some e⟩ ∧
    (process_query query session_id store now fx).2 = store := by
  unfold process_query
  simp [htools, hsel, hcall, hfmt, hpersist]

/-- C1 witness: the amended behaviour at a concrete request. -/
theorem claim1_witness :
    (process_query "list projects" "sid" none 0
      { tools := [⟨"list_projects", "d", Json.null⟩],
        selectRes := .ok ("list_projects", Json.obj []),
        callPrimary := .ok (Json.obj [("results", Json.arr [])]),
        callSecondary := .error "unused",
        formatRes := .ok "resp",
        persistRes := .error "redis gone" }).1 =
      ⟨"An error occurred: redis gone", false, "sid", none, some "redis gone"⟩ ∧
    (process_query "list projects" "sid" none 0
      { tools := [⟨"list_projects", "d", Json.null⟩],
        selectRes := .ok ("list_projects", Json.obj []),
        callPrimary := .ok (Json.obj [("results", Json.arr [])]),
        callSecondary := .error "unused",
        formatRes := .ok "resp",
        persistRes := .error "redis gone" }).2 = none :=
  claim1_amended "list projects" "sid" none 0 _ "list_projects" (Json.obj [])
    (Json.obj [("results", Json.arr [])]) "resp" "redis gone"
    (by decide) rfl rfl (by decide) rfl

/-- C5 counterexample: with a non-dict tool result (a bare number, which
`call_tool` can deliver), a primary-formatter timeout makes the fallback
formatter raise on `result.get`, so the formatting step *does* fail
outward: the envelope has `success=false`, refuting "never fails outward
for every tool_name and tool result". -/
theorem claim5_counterexample :
    (process_query "q" "sid" none 0
      { tools := [⟨"get_answer", "d", Json.null⟩],
        selectRes := .ok ("get_answer", Json.obj []),
        callPrimary := .ok (Json.num 3),
        callSecondary := .error "unused",
        formatRes := .timeout,
        persistRes := .ok () }).1.success = false := by
  rfl

/-- C5 amended: whenever the primary completion-based formatting times
out (default 10 seconds) or raises, and the deterministic fallback
formatter itself evaluates without raising on the (possibly merged)
result, the orchestrator returns the fallback formatter's string and the
envelope's `success` stays `true`; on result shapes that make the
fallback raise (for example a non-dict result) the exception escapes to
the generic handler and `success` is `false`. -/
theorem claim5_amended (query session_id : String) (store : Option SessionContext) (now : Nat)
    (fx : Effects) (tn : String) (args r0 : Json) (s : String)
    (htools : fx.tools ≠ [])
    (hsel : fx.selectRes = .ok (tn, args))
    (hcall : fx.callPrimary = .ok r0)
    (hfail : fx.formatRes = .timeout ∨ ∃ m, fx.formatRes = .failure m)
    (hfb : format_tool_result tn (multi_intent_merge (needs_both_query query) tn r0 fx.callSecondary)
      = some s)
    (hpersist : fx.persistRes = .ok ()) :
    (process_query query session_id store now fx).1.response = s ∧
    (process_query query session_id store now fx).1.success = true := by
  have hstep : format_step tn
      (multi_intent_merge (needs_both_query query) tn r0 fx.callSecondary) fx.formatRes = .ok s := by
    rcases hfail with h | ⟨m, h⟩ <;> simp [format_step, format_result, h, hfb]
  unfold process_query
  simp [htools, hsel, hcall, hstep, hpersist]

/-- C5 witness: a timed-out primary on a well-shaped `list_projects`
result falls back to the deterministic string with `success=true`. -/
theorem claim5_witness :
    (process_query "show all" "sid" none 0
      { tools := [⟨"list_projects", "d", Json.null⟩],
        selectRes := .ok ("list_projects", Json.obj []),
        callPrimary := .ok (Json.obj
          [("results", Json.arr [Json.obj [("id", Json.num 1), ("name", Json.str "Alpha")]])]),
        callSecondary := .error "unused",
        formatRes := .timeout,
        persistRes := .ok () }).1.response = "Found 1 project(s):\n1. Alpha (ID: 1)" ∧
    (process_query "show all" "sid" none 0
      { tools := [⟨"list_projects", "d", Json.null⟩],
        selectRes := .ok ("list_projects", Json.obj []),
        callPrimary := .ok (Json.obj
          [("results", Json.arr [Json.obj [("id", Json.num 1), ("name", Json.str "Alpha")]])]),
        callSecondary := .error "unused",
        formatRes := .timeout,
        persistRes := .ok () }).1.success = true :=
  claim5_amended "show all" "sid" none 0 _ "list_projects" (Json.obj [])
    (Json.obj [("results", Json.arr [Json.obj [("id", Json.num 1), ("name", Json.str "Alpha")]])])
    "Found 1 project(s):\n1. Alpha (ID: 1)"
    (by decide) rfl rfl (Or.inl rfl) (by decide) rfl

/-- C7 counterexample: a query naming both kinds, tool resolved as
`list_applications`, primary returning a dict and the secondary
`list_projects` call *succeeding* with a dict — the empty dict — is not
merged at all (the line-271 guard also demands truthiness), so the
result keeps no `"projects"` key, refuting "when both calls succeed and
return dicts, the results are merged". -/
theorem claim7_counterexample :
    needs_both_query "list applications and projects" = true ∧
    multi_intent_merge true "list_applications"
        (Json.obj [("results", Json.arr [Json.obj [("id", Json.num 1)]])])
        (.ok (Json.obj [])) =
      Json.obj [("results", Json.arr [Json.obj [("id", Json.num 1)]])] ∧
    pyGet [("results", Json.arr [Json.obj [("id", Json.num 1)]])] "projects" = none := by
  refine ⟨by decide, rfl, rfl⟩

/-- C7 amended: for a query naming both kinds, a resolved
`list_applications` (resp. `list_projects`) consumes a secondary
`list_projects` (resp. `list_applications`) outcome; when both sides are
dicts the results are merged into one object with `"applications"` and
`"projects"` keys populated from each side's `"results"`-or-kind-named
key — on the `list_applications` side only if the secondary dict is
additionally truthy (non-empty) — and a failed secondary call is dropped
from the merge with the envelope's `success` still `true`. -/
theorem claim7_amended (q : String) (hq : needs_both_query q = true) :
    (∀ (r1 p1 : List (String × Json)), p1 ≠ [] →
      multi_intent_merge (needs_both_query q) "list_applications" (.obj r1) (.ok (.obj p1)) =
        .obj [("applications", pyGetD r1 "results" (pyGetD r1 "applications" (.arr []))),
              ("projects", pyGetD p1 "results" (pyGetD p1 "projects" (.arr [])))]) ∧
    (∀ (r0 a0 : List (String × Json)),
      multi_intent_merge (needs_both_query q) "list_projects" (.obj r0) (.ok (.obj a0)) =
        .obj [("projects", pyGetD r0 "results" (pyGetD r0 "projects" (.arr []))),
              ("applications", pyGetD a0 "results" (pyGetD a0 "applications" (.arr [])))]) ∧
    (∀ (tn : String) (r0 : Json) (e : String),
      multi_intent_merge (needs_both_query q) tn r0 (.error e) = r0) ∧
    (∀ (session_id : String) (store : Option SessionContext) (now : Nat) (fx : Effects)
        (tn : String) (args r0 : Json) (fmt e : String),
      fx.tools ≠ [] → fx.selectRes = .ok (tn, args) → fx.callPrimary = .ok r0 →
      fx.callSecondary = .error e →
      format_step tn r0 fx.formatRes = .ok fmt →
      fx.persistRes = .ok () →
      (process_query q session_id store now fx).1.success = true) := by
  rw [hq]
  refine ⟨?_, ?_, ?_, ?_⟩
  · intro r1 p1 hp1
    simp [multi_intent_merge, pyTruthy, hp1]
  · intro r0 a0
    simp [multi_intent_merge]
  · intro tn r0 e
    simp [multi_intent_merge]
  · intro session_id store now fx tn args r0 fmt e htools hsel hcall hsec hfmt hpersist
    have hmerge : multi_intent_merge true tn r0 (.error e) = r0 := by
      simp [multi_intent_merge]
    unfold process_query
    simp [htools, hsel, hcall, hsec, hmerge, hfmt, hpersist, hq]

/-- C7 witness: a concrete compound query with both sub-results
non-empty dicts merges into the two-key object. -/
theorem claim7_witness :
    multi_intent_merge (needs_both_query "list applications and projects") "list_applications"
        (.obj [("results", Json.arr [Json.obj [("id", Json.num 1)]])])
        (.ok (.obj [("results", Json.arr [Json.obj [("id", Json.num 2)]])])) =
      .obj [("applications",
              pyGetD [("results", Json.arr [Json.obj [("id", Json.num 1)]])] "results"
                (pyGetD [("results", Json.arr [Json.obj [("id", Json.num 1)]])] "applications" (.arr []))),
            ("projects",
              pyGetD [("results", Json.arr [Json.obj [("id", Json.num 2)]])] "results"
                (pyGetD [("results", Json.arr [Json.obj [("id", Json.num 2)]])] "projects" (.arr [])))] :=
  (claim7_amended "list applications and projects" (by decide)).1 _ _ (by decide)

/-- C8: when the completion output fails to parse as JSON, or parses to
an object whose `tool_name` is null or absent, `select_tool` fails with a
`ValueError` message carrying the raw (stripped) completion text, and
`process_query` under that failure returns `success=false` with
`tool_name=null`, the message as both `response` and `error`, and the
session store unchanged (no turn appended). -/
theorem claim8_main (completion q session_id : String) (store : Option SessionContext)
    (now : Nat) (tools : List ToolDesc) (cp cs : Except String Json) (fr : FmtOutcome)
    (pr : Except String Unit)
    (hbad : jsonParseS (String.mk (extractJsonChars (pyStrip completion.toList))) = none ∨
      ∃ fs, jsonParseS (String.mk (extractJsonChars (pyStrip completion.toList))) = some (.obj fs) ∧
        (pyGet fs "tool_name" = none ∨ pyGet fs "tool_name" = some .null))
    (htools : tools ≠ []) :
    ∃ msg, select_tool completion = .error msg ∧
      strHasSub msg (String.mk (pyStrip completion.toList)) = true ∧
      (process_query q session_id store now ⟨tools, .error msg, cp, cs, fr, pr⟩).1 =
        ⟨msg, false, session_id, none, some msg⟩ ∧
      (process_query q session_id store now ⟨tools, .error msg, cp, cs, fr, pr⟩).2 = store := by
  have envelope : ∀ msg : String,
      (process_query q session_id store now ⟨tools, .error msg, cp, cs, fr, pr⟩).1 =
        ⟨msg, false, session_id, none, some msg⟩ ∧
      (process_query q session_id store now ⟨tools, .error msg, cp, cs, fr, pr⟩).2 = store := by
    intro msg
    unfold process_query
    simp [htools]
  rcases hbad with hp | ⟨fs, hp, hn⟩
  · refine ⟨_, select_tool_parse_fail completion hp, ?_, envelope _⟩
    exact strHasSub_append_right _ _
  · refine ⟨_, select_tool_null_tool completion fs hp hn, ?_, envelope _⟩
    exact strHasSub_append_right _ _

/-- C8 witness: the spec's scenario completion
`{"tool_name": null, "error": "no match"}` at a concrete request. -/
theorem claim8_witness :
    ∃ msg, select_tool "\x7b\"tool_name\": null, \"error\": \"no match\"\x7d" = .error msg ∧
      strHasSub msg (String.mk (pyStrip
        "\x7b\"tool_name\": null, \"error\": \"no match\"\x7d".toList)) = true ∧
      (process_query "list everything" "sid" none 0
        ⟨[⟨"list_projects", "d", Json.null⟩], .error msg, .error "nc", .error "nc",
          .ok "f", .ok ()⟩).1 = ⟨msg, false, "sid", none, some msg⟩ ∧
      (process_query "list everything" "sid" none 0
        ⟨[⟨"list_projects", "d", Json.null⟩], .error msg, .error "nc", .error "nc",
          .ok "f", .ok ()⟩).2 = none :=
  claim8_main "\x7b\"tool_name\": null, \"error\": \"no match\"\x7d" "list everything" "sid"
    none 0 [⟨"list_projects", "d", Json.null⟩] (.error "nc") (.error "nc") (.ok "f") (.ok ())
    (Or.inr ⟨[("tool_name", Json.null), ("error", Json.str "no match")], by decide, by decide⟩)
    (by decide)

end SdeMcp
